import Mathlib

/-!
Shallow embedding of the restart-orchestration core of the supervised
CLI monitor: the services timing_manager.py, restart_controller.py,
pattern_detector.py, task_queue.py and the models waiting_period.py,
monitoring_session.py, limit_detection_event.py.

Modelling conventions, kept uniform through the file:
* Each call to datetime.now() is replaced by an explicit `now : Rat`
  argument measured in seconds; Python datetimes have microsecond
  resolution and exact timedelta arithmetic, so rationals model the
  arithmetic faithfully.
* Python float literals of the confidence scorer are modelled as exact
  rationals written as fractions (0.3 becomes 3/10 and so on).
* Text is a list of characters; lowercasing and whitespace handling
  follow the ASCII behaviour of the code paths involved.
* A Python exception is modelled by `Except String`, carrying the
  message of the raised ValueError or RuntimeError.
-/

/-- Whitespace test matching the characters stripped by str.strip(). -/
def isSpaceCh (c : Char) : Bool :=
  c == ' ' || c == '\t' || c == '\n' || c == '\r' || c == '\x0b' || c == '\x0c'

/-- ASCII lowercasing of one character, as str.lower() acts on ASCII. -/
def toLowerCh (c : Char) : Char :=
  if c.isUpper then Char.ofNat (c.toNat + 32) else c

/-- Lowercasing a whole text, the model of str.lower(). -/
def lowerStr (l : List Char) : List Char := l.map toLowerCh

/-- The model of str.strip(): drop whitespace from both ends. -/
def stripCh (l : List Char) : List Char :=
  ((l.dropWhile isSpaceCh).reverse.dropWhile isSpaceCh).reverse

/-- Status of a waiting period, from waiting_period.py PeriodStatus. -/
inductive PeriodStatus where
  | pending
  | active
  | completed
  | cancelled
deriving DecidableEq, Repr

/-- Serialization of a PeriodStatus value, its .value string. -/
def PeriodStatus.toStr : PeriodStatus → String
  | .pending => "pending"
  | .active => "active"
  | .completed => "completed"
  | .cancelled => "cancelled"

/-- Parse a PeriodStatus from its serialized string. -/
def PeriodStatus.ofStr : String → Except String PeriodStatus
  | "pending" => .ok .pending
  | "active" => .ok .active
  | "completed" => .ok .completed
  | "cancelled" => .ok .cancelled
  | s => .error s

/-- The WaitingPeriod model of waiting_period.py.  The opaque
completion_callback_data dictionary is abstracted to an optional string
payload that the serialization layer passes through unchanged. -/
structure WaitingPeriod where
  period_id : String
  start_time : Rat
  duration_hours : Rat
  end_time : Option Rat
  status : PeriodStatus
  associated_event_id : Option String
  session_id : Option String
  last_check_time : Option Rat
  check_interval_seconds : Int
  auto_complete : Bool
  completion_callback_data : Option String
  show_progress : Bool
  notification_intervals : List Rat
deriving DecidableEq, Repr

/-- Embeds the validate_duration validator of WaitingPeriod. -/
def WaitingPeriod.validate_duration (v : Rat) : Except String Rat :=
  if v ≤ 0 then .error "Duration must be positive"
  else if 24 < v then .error "Duration cannot exceed 24 hours"
  else .ok v

/-- Embeds the validate_check_interval validator of WaitingPeriod. -/
def WaitingPeriod.validate_check_interval (v : Int) : Except String Int :=
  if 1 ≤ v ∧ v ≤ 3600 then .ok v
  else .error "Check interval must be between 1 and 3600 seconds"

/-- Descending sort applied by the notification-intervals validator. -/
def sortNotificationIntervals (v : List Rat) : List Rat :=
  if v = [] then v else v.mergeSort (fun a b => b ≤ a)

/-- Embeds the validate_notification_intervals validator: each entry
must be a fraction in (0, 1], and the list is sorted descending. -/
def WaitingPeriod.validate_notification_intervals
    (v : List Rat) : Except String (List Rat) :=
  if v = [] then .ok v
  else if v.all (fun f => 0 < f ∧ f ≤ 1) then
    .ok (sortNotificationIntervals v)
  else .error "Notification intervals must be fractions between 0 and 1"

/-- Embeds WaitingPeriod.is_active. -/
def WaitingPeriod.is_active (wp : WaitingPeriod) : Bool :=
  wp.status == PeriodStatus.active

/-- Embeds WaitingPeriod.is_completed. -/
def WaitingPeriod.is_completed (wp : WaitingPeriod) : Bool :=
  wp.status == PeriodStatus.completed

/-- Embeds WaitingPeriod.is_cancelled. -/
def WaitingPeriod.is_cancelled (wp : WaitingPeriod) : Bool :=
  wp.status == PeriodStatus.cancelled

/-- Embeds WaitingPeriod.is_expired at an explicit current time. -/
def WaitingPeriod.is_expired (wp : WaitingPeriod) (now : Rat) : Bool :=
  if !wp.is_active then false
  else
    match wp.end_time with
    | none => false
    | some e => now ≥ e

/-- Embeds WaitingPeriod.start_waiting. -/
def WaitingPeriod.start_waiting (wp : WaitingPeriod) (now : Rat) :
    Except String WaitingPeriod :=
  if wp.status ≠ PeriodStatus.pending then
    .error "Cannot start waiting period in this state"
  else
    .ok { wp with
          status := PeriodStatus.active
          start_time := now
          end_time := some (now + wp.duration_hours * 3600)
          last_check_time := some now }

/-- Embeds WaitingPeriod.complete. -/
def WaitingPeriod.complete (wp : WaitingPeriod) (now : Rat) :
    Except String WaitingPeriod :=
  if wp.status ≠ PeriodStatus.active ∧ wp.status ≠ PeriodStatus.pending then
    .error "Cannot complete waiting period in this state"
  else
    .ok { wp with status := PeriodStatus.completed, last_check_time := some now }

/-- Embeds WaitingPeriod.cancel. -/
def WaitingPeriod.cancel (wp : WaitingPeriod) (now : Rat) :
    Except String WaitingPeriod :=
  if wp.status = PeriodStatus.completed then
    .error "Cannot cancel completed waiting period"
  else
    .ok { wp with status := PeriodStatus.cancelled, last_check_time := some now }

/-- Embeds WaitingPeriod.get_remaining_time: None unless active with an
end time, else the remaining timedelta floored at zero. -/
def WaitingPeriod.get_remaining_time (wp : WaitingPeriod) (now : Rat) :
    Option Rat :=
  if !wp.is_active then none
  else
    match wp.end_time with
    | none => none
    | some e => some (if 0 < e - now then e - now else 0)

/-- Embeds WaitingPeriod.get_remaining_seconds. -/
def WaitingPeriod.get_remaining_seconds (wp : WaitingPeriod) (now : Rat) : Rat :=
  match wp.get_remaining_time now with
  | none => 0
  | some r => max 0 r

/-- Embeds WaitingPeriod.get_elapsed_time: zero while pending, else the
difference between the current time and the start time, unclamped. -/
def WaitingPeriod.get_elapsed_time (wp : WaitingPeriod) (now : Rat) : Rat :=
  if wp.status = PeriodStatus.pending then 0 else now - wp.start_time

/-- Embeds WaitingPeriod.get_elapsed_seconds. -/
def WaitingPeriod.get_elapsed_seconds (wp : WaitingPeriod) (now : Rat) : Rat :=
  wp.get_elapsed_time now

/-- Embeds WaitingPeriod.get_progress: 0 while pending, 1 once
completed or cancelled, else the clamped elapsed fraction. -/
def WaitingPeriod.get_progress (wp : WaitingPeriod) (now : Rat) : Rat :=
  if wp.status = PeriodStatus.pending then 0
  else if wp.status = PeriodStatus.completed ∨ wp.status = PeriodStatus.cancelled then 1
  else
    match wp.end_time with
    | none => 0
    | some e =>
        let total := e - wp.start_time
        let elapsed := now - wp.start_time
        min 1 (max 0 (elapsed / total))

/-- Embeds WaitingPeriod.update_check_time. -/
def WaitingPeriod.update_check_time (wp : WaitingPeriod) (now : Rat) :
    WaitingPeriod :=
  { wp with last_check_time := some now }

/-- Embeds WaitingPeriod.check_and_complete: updates the check time and
completes the period when it is active, expired and auto_complete is
set; the returned flag says whether completion happened. -/
def WaitingPeriod.check_and_complete (wp : WaitingPeriod) (now : Rat) :
    WaitingPeriod × Bool :=
  if !wp.is_active then (wp, false)
  else
    let wp1 := wp.update_check_time now
    if wp1.is_expired now ∧ wp1.auto_complete then
      ({ wp1 with status := PeriodStatus.completed, last_check_time := some now },
       true)
    else (wp1, false)

/-- Guard stating that the stored end time, when present, lies strictly
after the start time; every period built by start_waiting satisfies it,
and it marks exactly the states where get_progress divides by a
nonzero total in the Python source. -/
def WaitingPeriod.end_after_start (wp : WaitingPeriod) : Bool :=
  match wp.end_time with
  | none => true
  | some e => wp.start_time < e

/-- Formats the remaining time of a period as the human-readable string
of WaitingPeriod.format_remaining_time; int() truncation agrees with
the floor on the non-negative remaining value. -/
def WaitingPeriod.format_remaining_time (wp : WaitingPeriod) (now : Rat) :
    String :=
  match wp.get_remaining_time now with
  | none => "No time remaining"
  | some r =>
      let total : Int := r.floor
      if total ≤ 0 then "Time expired"
      else
        let hours := total / 3600
        let rem := total % 3600
        let minutes := rem / 60
        let seconds := rem % 60
        if hours > 0 then
          toString hours ++ "h " ++ toString minutes ++ "m " ++
            toString seconds ++ "s"
        else if minutes > 0 then
          toString minutes ++ "m " ++ toString seconds ++ "s"
        else toString seconds ++ "s"

/-- Serialized form of a WaitingPeriod, the dictionary produced by
to_dict.  A datetime travels through its ISO-8601 string, which Python
round-trips exactly at microsecond resolution, so the codec is
modelled as the instant itself; the trailing entries are the computed
fields that from_dict pops. -/
structure WaitingPeriodDict where
  period_id : String
  start_time : Rat
  duration_hours : Rat
  end_time : Option Rat
  status : String
  associated_event_id : Option String
  session_id : Option String
  last_check_time : Option Rat
  check_interval_seconds : Int
  auto_complete : Bool
  completion_callback_data : Option String
  show_progress : Bool
  notification_intervals : List Rat
  remaining_seconds : Rat
  progress : Rat
  formatted_remaining : String
  is_expired : Bool
deriving DecidableEq, Repr

/-- Embeds WaitingPeriod.to_dict. -/
def WaitingPeriod.to_dict (wp : WaitingPeriod) (now : Rat) :
    WaitingPeriodDict :=
  { period_id := wp.period_id
    start_time := wp.start_time
    duration_hours := wp.duration_hours
    end_time := wp.end_time
    status := wp.status.toStr
    associated_event_id := wp.associated_event_id
    session_id := wp.session_id
    last_check_time := wp.last_check_time
    check_interval_seconds := wp.check_interval_seconds
    auto_complete := wp.auto_complete
    completion_callback_data := wp.completion_callback_data
    show_progress := wp.show_progress
    notification_intervals := wp.notification_intervals
    remaining_seconds := wp.get_remaining_seconds now
    progress := wp.get_progress now
    formatted_remaining := wp.format_remaining_time now
    is_expired := wp.is_expired now }

/-- Embeds WaitingPeriod.from_dict: datetime strings are parsed back,
computed fields are dropped, and the pydantic field validators run on
construction. -/
def WaitingPeriod.from_dict (d : WaitingPeriodDict) :
    Except String WaitingPeriod := do
  let st ← PeriodStatus.ofStr d.status
  let dh ← WaitingPeriod.validate_duration d.duration_hours
  let ci ← WaitingPeriod.validate_check_interval d.check_interval_seconds
  let ni ← WaitingPeriod.validate_notification_intervals d.notification_intervals
  .ok { period_id := d.period_id
        start_time := d.start_time
        duration_hours := dh
        end_time := d.end_time
        status := st
        associated_event_id := d.associated_event_id
        session_id := d.session_id
        last_check_time := d.last_check_time
        check_interval_seconds := ci
        auto_complete := d.auto_complete
        completion_callback_data := d.completion_callback_data
        show_progress := d.show_progress
        notification_intervals := ni }

/-- Session status from monitoring_session.py SessionStatus. -/
inductive SessionStatus where
  | inactive
  | active
  | waiting
  | stopped
deriving DecidableEq, Repr

/-- Serialization of a SessionStatus value, its .value string. -/
def SessionStatus.toStr : SessionStatus → String
  | .inactive => "inactive"
  | .active => "active"
  | .waiting => "waiting"
  | .stopped => "stopped"

/-- Parse a SessionStatus from its serialized string. -/
def SessionStatus.ofStr : String → Except String SessionStatus
  | "inactive" => .ok .inactive
  | "active" => .ok .active
  | "waiting" => .ok .waiting
  | "stopped" => .ok .stopped
  | s => .error s

/-- Reduced model of RestartCommandConfiguration: the three fields the
restart orchestration reads (id, template, argument list); retry,
environment and shell options are not touched by the claims. -/
structure RestartCommandConfiguration where
  config_id : String
  command_template : String
  arguments : List String
deriving DecidableEq, Repr

/-- Embeds RestartCommandConfiguration.create_default; the uuid id is
passed in. -/
def RestartCommandConfiguration.create_default (claude_command : String)
    (fresh_id : String) : RestartCommandConfiguration :=
  { config_id := fresh_id, command_template := claude_command, arguments := [] }

/-- Embeds RestartCommandConfiguration.clone: same data, new id. -/
def RestartCommandConfiguration.clone (c : RestartCommandConfiguration)
    (fresh_id : String) : RestartCommandConfiguration :=
  { c with config_id := fresh_id }

/-- Embeds RestartCommandConfiguration.build_full_command in the
default non-shell form: template followed by the arguments. -/
def RestartCommandConfiguration.build_full_command
    (c : RestartCommandConfiguration) : List String :=
  c.command_template :: c.arguments

/-- The MonitoringSession model of monitoring_session.py. -/
structure MonitoringSession where
  session_id : String
  start_time : Rat
  status : SessionStatus
  claude_process_id : Option Int
  detection_count : Nat
  last_activity : Option Rat
  claude_command : String
  working_directory : Option String
  restart_commands : List String
  restart_config_id : Option String
  waiting_period_id : Option String
  error_count : Nat
  last_error : Option String
  restart_config : Option RestartCommandConfiguration
deriving DecidableEq, Repr

/-- Embeds the validate_claude_command validator: reject blank
commands, store the stripped text. -/
def validateClaudeCommand (v : String) : Except String String :=
  if stripCh v.data = [] then .error "Claude command cannot be empty"
  else .ok (String.mk (stripCh v.data))

/-- Embeds MonitoringSession.start_monitoring. -/
def MonitoringSession.start_monitoring (s : MonitoringSession)
    (process_id : Int) (now : Rat) : Except String MonitoringSession :=
  if s.status ≠ SessionStatus.inactive then
    .error "Cannot start monitoring in this state"
  else
    .ok { s with
          status := SessionStatus.active
          claude_process_id := some process_id
          last_activity := some now }

/-- Embeds MonitoringSession.stop_monitoring. -/
def MonitoringSession.stop_monitoring (s : MonitoringSession) (now : Rat) :
    MonitoringSession :=
  { s with status := SessionStatus.stopped, last_activity := some now }

/-- Embeds MonitoringSession.mark_crashed, which stops the session. -/
def MonitoringSession.mark_crashed (s : MonitoringSession) (now : Rat) :
    MonitoringSession :=
  { s with status := SessionStatus.stopped, last_activity := some now }

/-- Embeds MonitoringSession.enter_waiting_period. -/
def MonitoringSession.enter_waiting_period (s : MonitoringSession)
    (wpid : String) (now : Rat) : Except String MonitoringSession :=
  if s.status ≠ SessionStatus.active then
    .error "Cannot enter waiting from this state"
  else
    .ok { s with
          status := SessionStatus.waiting
          waiting_period_id := some wpid
          detection_count := s.detection_count + 1
          last_activity := some now }

/-- Embeds MonitoringSession.resume_from_waiting. -/
def MonitoringSession.resume_from_waiting (s : MonitoringSession)
    (now : Rat) : Except String MonitoringSession :=
  if s.status ≠ SessionStatus.waiting then
    .error "Cannot resume from this state"
  else
    .ok { s with
          status := SessionStatus.active
          waiting_period_id := none
          last_activity := some now }

/-- Embeds MonitoringSession.record_error. -/
def MonitoringSession.record_error (s : MonitoringSession)
    (error_message : String) (now : Rat) : MonitoringSession :=
  { s with
    error_count := s.error_count + 1
    last_error := some error_message
    last_activity := some now }

/-- Embeds MonitoringSession.get_uptime_seconds. -/
def MonitoringSession.get_uptime_seconds (s : MonitoringSession)
    (now : Rat) : Rat :=
  if s.status = SessionStatus.inactive then 0
  else (s.last_activity.getD now) - s.start_time

/-- Embeds MonitoringSession.is_active. -/
def MonitoringSession.is_active (s : MonitoringSession) : Bool :=
  s.status == SessionStatus.active

/-- Embeds MonitoringSession.is_waiting. -/
def MonitoringSession.is_waiting (s : MonitoringSession) : Bool :=
  s.status == SessionStatus.waiting

/-- Serialized form of a MonitoringSession; the nested restart
configuration travels through its own to_dict, modelled structurally,
and uptime_seconds is the computed field that from_dict pops. -/
structure MonitoringSessionDict where
  session_id : String
  start_time : Rat
  status : String
  claude_process_id : Option Int
  detection_count : Nat
  last_activity : Option Rat
  claude_command : String
  working_directory : Option String
  restart_commands : List String
  restart_config_id : Option String
  waiting_period_id : Option String
  error_count : Nat
  last_error : Option String
  restart_config : Option RestartCommandConfiguration
  uptime_seconds : Rat
deriving DecidableEq, Repr

/-- Embeds MonitoringSession.to_dict. -/
def MonitoringSession.to_dict (s : MonitoringSession) (now : Rat) :
    MonitoringSessionDict :=
  { session_id := s.session_id
    start_time := s.start_time
    status := s.status.toStr
    claude_process_id := s.claude_process_id
    detection_count := s.detection_count
    last_activity := s.last_activity
    claude_command := s.claude_command
    working_directory := s.working_directory
    restart_commands := s.restart_commands
    restart_config_id := s.restart_config_id
    waiting_period_id := s.waiting_period_id
    error_count := s.error_count
    last_error := s.last_error
    restart_config := s.restart_config
    uptime_seconds := s.get_uptime_seconds now }

/-- Embeds MonitoringSession.from_dict. -/
def MonitoringSession.from_dict (d : MonitoringSessionDict) :
    Except String MonitoringSession := do
  let st ← SessionStatus.ofStr d.status
  let cmd ← validateClaudeCommand d.claude_command
  .ok { session_id := d.session_id
        start_time := d.start_time
        status := st
        claude_process_id := d.claude_process_id
        detection_count := d.detection_count
        last_activity := d.last_activity
        claude_command := cmd
        working_directory := d.working_directory
        restart_commands := d.restart_commands
        restart_config_id := d.restart_config_id
        waiting_period_id := d.waiting_period_id
        error_count := d.error_count
        last_error := d.last_error
        restart_config := d.restart_config }

/-- The LimitDetectionEvent model of limit_detection_event.py. -/
structure LimitDetectionEvent where
  event_id : String
  detection_time : Rat
  matched_pattern : String
  matched_text : String
  session_id : Option String
  cooldown_start : Option Rat
  cooldown_end : Option Rat
  cooldown_duration_hours : Rat
  line_number : Option Int
  confidence : Rat
  context_before : Option String
  context_after : Option String
  processed : Bool
  action_taken : Option String
  error_occurred : Bool
  error_message : Option String
deriving DecidableEq, Repr

/-- Embeds LimitDetectionEvent.start_cooldown. -/
def LimitDetectionEvent.start_cooldown (e : LimitDetectionEvent)
    (now : Rat) : Except String LimitDetectionEvent :=
  if e.cooldown_start.isSome then .error "Cooldown has already been started"
  else
    .ok { e with
          cooldown_start := some now
          cooldown_end := some (now + e.cooldown_duration_hours * 3600) }

/-- Embeds LimitDetectionEvent.is_cooldown_active. -/
def LimitDetectionEvent.is_cooldown_active (e : LimitDetectionEvent)
    (now : Rat) : Bool :=
  match e.cooldown_start, e.cooldown_end with
  | some s, some en => s ≤ now ∧ now < en
  | _, _ => false

/-- Embeds LimitDetectionEvent.is_cooldown_expired. -/
def LimitDetectionEvent.is_cooldown_expired (e : LimitDetectionEvent)
    (now : Rat) : Bool :=
  match e.cooldown_end with
  | none => false
  | some en => now ≥ en

/-- Embeds LimitDetectionEvent.get_remaining_cooldown. -/
def LimitDetectionEvent.get_remaining_cooldown (e : LimitDetectionEvent)
    (now : Rat) : Option Rat :=
  if !e.is_cooldown_active now then none
  else e.cooldown_end.map (fun en => en - now)

/-- Embeds LimitDetectionEvent.get_remaining_cooldown_seconds. -/
def LimitDetectionEvent.get_remaining_cooldown_seconds
    (e : LimitDetectionEvent) (now : Rat) : Rat :=
  (e.get_remaining_cooldown now).getD 0

/-- Embeds LimitDetectionEvent.get_cooldown_progress. -/
def LimitDetectionEvent.get_cooldown_progress (e : LimitDetectionEvent)
    (now : Rat) : Rat :=
  if !e.is_cooldown_active now then
    if e.is_cooldown_expired now then 1 else 0
  else
    match e.cooldown_start, e.cooldown_end with
    | some s, some en => min 1 ((now - s) / (en - s))
    | _, _ => 0

/-- Serialized form of a LimitDetectionEvent; the last three entries
are the computed fields that from_dict pops. -/
structure LimitDetectionEventDict where
  event_id : String
  detection_time : Rat
  matched_pattern : String
  matched_text : String
  session_id : Option String
  cooldown_start : Option Rat
  cooldown_end : Option Rat
  cooldown_duration_hours : Rat
  line_number : Option Int
  confidence : Rat
  context_before : Option String
  context_after : Option String
  processed : Bool
  action_taken : Option String
  error_occurred : Bool
  error_message : Option String
  is_cooldown_active : Bool
  remaining_cooldown_seconds : Rat
  cooldown_progress : Rat
deriving DecidableEq, Repr

/-- Embeds LimitDetectionEvent.to_dict. -/
def LimitDetectionEvent.to_dict (e : LimitDetectionEvent) (now : Rat) :
    LimitDetectionEventDict :=
  { event_id := e.event_id
    detection_time := e.detection_time
    matched_pattern := e.matched_pattern
    matched_text := e.matched_text
    session_id := e.session_id
    cooldown_start := e.cooldown_start
    cooldown_end := e.cooldown_end
    cooldown_duration_hours := e.cooldown_duration_hours
    line_number := e.line_number
    confidence := e.confidence
    context_before := e.context_before
    context_after := e.context_after
    processed := e.processed
    action_taken := e.action_taken
    error_occurred := e.error_occurred
    error_message := e.error_message
    is_cooldown_active := e.is_cooldown_active now
    remaining_cooldown_seconds := e.get_remaining_cooldown_seconds now
    cooldown_progress := e.get_cooldown_progress now }

/-- Embeds the validate_non_empty_strings validator of the event. -/
def validateNonEmpty (v : String) : Except String String :=
  if stripCh v.data = [] then .error "Pattern and text cannot be empty"
  else .ok (String.mk (stripCh v.data))

/-- Embeds the validate_session_id validator of the event: None stays
None, otherwise strip and map the empty result to None. -/
def validateSessionId (v : Option String) : Option String :=
  match v with
  | none => none
  | some s =>
      let t := stripCh s.data
      if t = [] then none else some (String.mk t)

/-- Embeds the validate_duration validator of the event. -/
def validateCooldownDuration (v : Rat) : Except String Rat :=
  if v ≤ 0 then .error "Cooldown duration must be positive"
  else if 24 < v then .error "Cooldown duration cannot exceed 24 hours"
  else .ok v

/-- Embeds the validate_confidence validator of the event. -/
def validateConfidence (v : Rat) : Except String Rat :=
  if 0 ≤ v ∧ v ≤ 1 then .ok v
  else .error "Confidence must be between 0.0 and 1.0"

/-- Embeds the validate_cooldown_end validator: when both bounds are
set the end must lie strictly after the start. -/
def validateCooldownOrder (cs ce : Option Rat) : Except String Unit :=
  match cs, ce with
  | some s, some en =>
      if en ≤ s then .error "Cooldown end must be after start"
      else .ok ()
  | _, _ => .ok ()

/-- Embeds the ge=1 field constraint on line_number. -/
def validateLineNumber (n : Option Int) : Except String Unit :=
  match n with
  | some k => if k < 1 then .error "line_number must be at least 1" else .ok ()
  | none => .ok ()

/-- Embeds LimitDetectionEvent.from_dict with the pydantic validators
of the model. -/
def LimitDetectionEvent.from_dict (d : LimitDetectionEventDict) :
    Except String LimitDetectionEvent := do
  let pat ← validateNonEmpty d.matched_pattern
  let txt ← validateNonEmpty d.matched_text
  let dh ← validateCooldownDuration d.cooldown_duration_hours
  let conf ← validateConfidence d.confidence
  let _ ← validateCooldownOrder d.cooldown_start d.cooldown_end
  let _ ← validateLineNumber d.line_number
  .ok { event_id := d.event_id
        detection_time := d.detection_time
        matched_pattern := pat
        matched_text := txt
        session_id := validateSessionId d.session_id
        cooldown_start := d.cooldown_start
        cooldown_end := d.cooldown_end
        cooldown_duration_hours := dh
        line_number := d.line_number
        confidence := conf
        context_before := d.context_before
        context_after := d.context_after
        processed := d.processed
        action_taken := d.action_taken
        error_occurred := d.error_occurred
        error_message := d.error_message }

/-- Clock drift event record from timing_manager.py. -/
structure ClockDriftEvent where
  detection_time : Rat
  drift_seconds : Rat
  previous_time : Rat
  current_time : Rat
  action_taken : String
deriving DecidableEq, Repr

/-- State of the TimingManager service of timing_manager.py.  The
monitoring thread is outside the embedding; check_frequency,
clock_drift_tolerance and default_cooldown_hours are plain fields
exactly as the constructor copies them out of the configuration, and a
completion callback is recorded by period id, with its invocation
reported in the result of check_waiting_periods instead of executed. -/
structure TimingManager where
  active_periods : List (String × WaitingPeriod)
  completed_periods : List WaitingPeriod
  clock_drift_events : List ClockDriftEvent
  check_frequency : Int
  clock_drift_tolerance : Rat
  default_cooldown_hours : Rat
  last_clock_check : Rat
  completion_callbacks : List String
deriving Repr

/-- Loop body of TimingManager.check_waiting_periods over the snapshot
of active periods: returns the surviving active entries, the newly
completed periods in completion order, the completed ids, the ids whose
registered callback was invoked, and the callback registry left after
the pops. -/
def checkLoop (now : Rat) :
    List (String × WaitingPeriod) → List String →
    List (String × WaitingPeriod) × List WaitingPeriod ×
      List String × List String × List String
  | [], callbacks => ([], [], [], [], callbacks)
  | (pid, p) :: rest, callbacks =>
      let r := p.check_and_complete now
      if r.2 then
        let rec1 := checkLoop now rest (callbacks.erase pid)
        (rec1.1, r.1 :: rec1.2.1, pid :: rec1.2.2.1,
         (if callbacks.contains pid then [pid] else []) ++ rec1.2.2.2.1,
         rec1.2.2.2.2)
      else
        let rec1 := checkLoop now rest callbacks
        ((pid, r.1) :: rec1.1, rec1.2.1, rec1.2.2.1, rec1.2.2.2.1,
         rec1.2.2.2.2)

/-- Embeds TimingManager.check_waiting_periods: completes every active
period that expired, moves it to the completed list, invokes and drops
its callback, and returns the completed ids together with the ids whose
callback fired. -/
def TimingManager.check_waiting_periods (tm : TimingManager) (now : Rat) :
    TimingManager × List String × List String :=
  let r := checkLoop now tm.active_periods tm.completion_callbacks
  ({ tm with
     active_periods := r.1
     completed_periods := tm.completed_periods ++ r.2.1
     completion_callbacks := r.2.2.2.2 }, r.2.2.1, r.2.2.2.1)

/-- Embeds TimingManager._adjust_periods_for_drift: every active period
with an end time has it shifted by the recorded drift amount. -/
def TimingManager.adjust_periods_for_drift
    (tm : TimingManager) (drift_seconds : Rat) : TimingManager :=
  { tm with
    active_periods := tm.active_periods.map (fun (q : String × WaitingPeriod) =>
      if q.2.is_active ∧ q.2.end_time.isSome then
        (q.1, { q.2 with
                end_time := q.2.end_time.map (fun e =>
                  if 0 < drift_seconds then e - drift_seconds
                  else e + drift_seconds) })
      else q) }

/-- Embeds TimingManager.check_clock_drift: compares the observed
elapsed wall-clock time against the expected check interval and, when
the absolute difference exceeds the tolerance, records a drift event
and adjusts all active periods. -/
def TimingManager.check_clock_drift (tm : TimingManager) (now : Rat) :
    TimingManager × Option ClockDriftEvent :=
  let actual_elapsed := now - tm.last_clock_check
  let expected_elapsed : Rat := (tm.check_frequency : Rat)
  let drift := |actual_elapsed - expected_elapsed|
  if drift > tm.clock_drift_tolerance then
    let ev : ClockDriftEvent :=
      { detection_time := now
        drift_seconds := drift
        previous_time := tm.last_clock_check
        current_time := now
        action_taken := "adjusting_periods" }
    let tm1 := { tm with clock_drift_events := tm.clock_drift_events ++ [ev] }
    let tm2 := tm1.adjust_periods_for_drift ev.drift_seconds
    ({ tm2 with last_clock_check := now }, some ev)
  else
    ({ tm with last_clock_check := now }, none)

/-- The pydantic v2 error raised when the explicit period_id=None hits
the non-Optional str field of WaitingPeriod (the default_factory only
applies when the key is absent). -/
def periodIdValidationError : String :=
  "1 validation error for WaitingPeriod: period_id: Input should be a valid string"

/-- Embeds TimingManager.add_waiting_period.  The method forwards its
period_id argument, None included, into the pydantic WaitingPeriod
constructor whose period_id field is a non-Optional str; under the
pydantic v2 this repository requires, the default_factory applies only
when the key is absent, so an explicit None raises ValidationError and
no period is created.  The remaining fields run through the field
validators. -/
def TimingManager.add_waiting_period (tm : TimingManager)
    (period_id : Option String)
    (duration_hours : Option Rat) (session_id event_id : Option String)
    (auto_start : Bool) (now : Rat) :
    Except String (TimingManager × WaitingPeriod) := do
  let dh0 := duration_hours.getD tm.default_cooldown_hours
  let pid ← match period_id with
    | some p => Except.ok p
    | none => Except.error periodIdValidationError
  let dh ← WaitingPeriod.validate_duration dh0
  let ci ← WaitingPeriod.validate_check_interval tm.check_frequency
  let wp0 : WaitingPeriod :=
    { period_id := pid
      start_time := now
      duration_hours := dh
      end_time := none
      status := PeriodStatus.pending
      associated_event_id := event_id
      session_id := session_id
      last_check_time := none
      check_interval_seconds := ci
      auto_complete := true
      completion_callback_data := none
      show_progress := true
      notification_intervals := [1/2, 1/4, 1/10] }
  let wp ← if auto_start then wp0.start_waiting now else .ok wp0
  .ok ({ tm with active_periods := tm.active_periods ++ [(pid, wp)] }, wp)

/-- Embeds TimingManager.set_completion_callback: registers a callback
for a currently active period id. -/
def TimingManager.set_completion_callback (tm : TimingManager) (pid : String) :
    TimingManager × Bool :=
  if (tm.active_periods.map Prod.fst).contains pid then
    (if tm.completion_callbacks.contains pid then tm
     else { tm with completion_callbacks := tm.completion_callbacks ++ [pid] },
     true)
  else (tm, false)

/-- Embeds TimingManager.remove_waiting_period. -/
def TimingManager.remove_waiting_period (tm : TimingManager) (pid : String)
    (mark_completed : Bool) (now : Rat) : TimingManager × Bool :=
  match List.lookup pid tm.active_periods with
  | none => (tm, false)
  | some p =>
      let p1 :=
        if mark_completed ∧ p.status = PeriodStatus.active then
          { p with status := PeriodStatus.completed, last_check_time := some now }
        else p
      ({ tm with
         active_periods := tm.active_periods.filter (fun q => q.1 ≠ pid)
         completed_periods := tm.completed_periods ++ [p1]
         completion_callbacks := tm.completion_callbacks.erase pid }, true)

/-- Embeds TimingManager.cancel_waiting_period; the cancel call raises
when the period already completed, which Except propagates. -/
def TimingManager.cancel_waiting_period (tm : TimingManager) (pid : String)
    (now : Rat) : Except String (TimingManager × Bool) :=
  match List.lookup pid tm.active_periods with
  | none => .ok (tm, false)
  | some p => do
      let p1 ← p.cancel now
      let tm1 := { tm with
        active_periods := (tm.active_periods.map
          (fun (q : String × WaitingPeriod) =>
            if q.1 = pid then (q.1, p1) else q)) }
      .ok (tm1.remove_waiting_period pid false now)

/-- Embeds TimingManager.fast_forward_period: shifts the start and end
of an active period backward to simulate elapsed time. -/
def TimingManager.fast_forward_period (tm : TimingManager) (pid : String)
    (seconds : Rat) : TimingManager × Bool :=
  match List.lookup pid tm.active_periods with
  | none => (tm, false)
  | some p =>
      if !p.is_active then (tm, false)
      else
        let p1 := { p with
          start_time := p.start_time - seconds
          end_time := p.end_time.map (fun e => e - seconds) }
        ({ tm with active_periods := (tm.active_periods.map
            (fun (q : String × WaitingPeriod) =>
              if q.1 = pid then (q.1, p1) else q)) }, true)

/-- Sample period used to instantiate the progress theorem: cancelled
immediately after starting a five-hour countdown. -/
def wpCancelledEarly : WaitingPeriod :=
  { period_id := "wait_sample1"
    start_time := 0
    duration_hours := 5
    end_time := some 18000
    status := PeriodStatus.cancelled
    associated_event_id := none
    session_id := some "sess_a"
    last_check_time := some 1
    check_interval_seconds := 60
    auto_complete := true
    completion_callback_data := none
    show_progress := true
    notification_intervals := [1/2, 1/4, 1/10] }

/-- Sample period whose start time lies in the future of the probe
time, exhibiting the unclamped elapsed-time computation. -/
def wpFutureStart : WaitingPeriod :=
  { period_id := "wait_sample2"
    start_time := 100
    duration_hours := 5
    end_time := some 18100
    status := PeriodStatus.active
    associated_event_id := none
    session_id := some "sess_a"
    last_check_time := some 100
    check_interval_seconds := 60
    auto_complete := true
    completion_callback_data := none
    show_progress := true
    notification_intervals := [1/2, 1/4, 1/10] }

/-- Sample expired period: active, five hours long, ended at time 18000. -/
def wpExpiredSample : WaitingPeriod :=
  { period_id := "wait_x"
    start_time := 0
    duration_hours := 5
    end_time := some 18000
    status := PeriodStatus.active
    associated_event_id := some "evt_1"
    session_id := some "sess_a"
    last_check_time := some 0
    check_interval_seconds := 60
    auto_complete := true
    completion_callback_data := none
    show_progress := true
    notification_intervals := [1/2, 1/4, 1/10] }

/-- Sample timing manager holding the expired period with a registered
completion callback. -/
def tmExpiredSample : TimingManager :=
  { active_periods := [("wait_x", wpExpiredSample)]
    completed_periods := []
    clock_drift_events := []
    check_frequency := 60
    clock_drift_tolerance := 30
    default_cooldown_hours := 5
    last_clock_check := 0
    completion_callbacks := ["wait_x"] }

/-- Sample period for the clock-drift check: active with end time 5000. -/
def wpDriftSample : WaitingPeriod :=
  { period_id := "wait_d"
    start_time := 0
    duration_hours := 5
    end_time := some 5000
    status := PeriodStatus.active
    associated_event_id := none
    session_id := some "sess_a"
    last_check_time := some 0
    check_interval_seconds := 60
    auto_complete := true
    completion_callback_data := none
    show_progress := true
    notification_intervals := [1/2, 1/4, 1/10] }

/-- Sample timing manager observing a backward clock jump: the last
check was at time 1000 and the next check happens at time 900, so the
wall clock ran backwards by 100 seconds against an expected 60-second
interval. -/
def tmDriftSample : TimingManager :=
  { active_periods := [("wait_d", wpDriftSample)]
    completed_periods := []
    clock_drift_events := []
    check_frequency := 60
    clock_drift_tolerance := 30
    default_cooldown_hours := 5
    last_clock_check := 1000
    completion_callbacks := [] }

/-- Sample monitoring session used by the round-trip witness. -/
def sessSample : MonitoringSession :=
  { session_id := "sess_a"
    start_time := 0
    status := SessionStatus.active
    claude_process_id := some 4242
    detection_count := 0
    last_activity := some 10
    claude_command := "claude --continue"
    working_directory := none
    restart_commands := []
    restart_config_id := some "cfg_1"
    waiting_period_id := none
    error_count := 0
    last_error := none
    restart_config := some
      { config_id := "cfg_1"
        command_template := "claude --continue"
        arguments := [] } }

/-- Sample detection event used by the round-trip witness and the
controller scenarios. -/
def evtSample : LimitDetectionEvent :=
  { event_id := "evt_1"
    detection_time := 50
    matched_pattern := "usage limit exceeded"
    matched_text := "usage limit exceeded"
    session_id := some "sess_a"
    cooldown_start := none
    cooldown_end := none
    cooldown_duration_hours := 5
    line_number := some 1
    confidence := 95/100
    context_before := none
    context_after := none
    processed := false
    action_taken := none
    error_occurred := false
    error_message := none }

/-- Word character, the ASCII reading of the regex \\w class used by
the boundary assertions of the time-reference regexes. -/
def isWordCh (c : Char) : Bool := c.isAlpha || c.isDigit || c == '_'

/-- Digit character, the regex \\d class. -/
def isDigitCh (c : Char) : Bool := c.isDigit

/-- leadsWith n l holds when n is a leading segment of l; it anchors a
literal token at the current scan position. -/
def leadsWith : List Char → List Char → Bool
  | [], _ => true
  | _ :: _, [] => false
  | a :: as, b :: bs => a == b && leadsWith as bs

/-- containsSub n l models the Python `in` operator: n occurs as a
contiguous substring of l. -/
def containsSub (n : List Char) : List Char → Bool
  | [] => n.isEmpty
  | c :: rest => leadsWith n (c :: rest) || containsSub n rest

/-- Word-boundary test against the character before the scan position;
none stands for the start of the text. -/
def boundaryBefore : Option Char → Bool
  | none => true
  | some p => !isWordCh p

/-- Word-boundary test after a token: end of text or a non-word
character. -/
def boundaryAfter : List Char → Bool
  | [] => true
  | c :: _ => !isWordCh c

/-- Matches the regex tail \\s*hours?\\b after the digits were
consumed; maximal munch is complete here because spaces, h and digits
are disjoint. -/
def hoursTail (l : List Char) : Bool :=
  match l.dropWhile isSpaceCh with
  | 'h' :: 'o' :: 'u' :: 'r' :: rest =>
      match rest with
      | 's' :: rest2 => boundaryAfter rest2
      | _ => boundaryAfter rest
  | _ => false

/-- Scanner for re.search of \\b\\d+\\s*hours?\\b: tries every
position left to right, tracking the previous character for the
leading boundary. -/
def hoursSearch (prev : Option Char) : List Char → Bool
  | [] => false
  | c :: rest =>
      (boundaryBefore prev && isDigitCh c &&
        hoursTail (rest.dropWhile isDigitCh)) || hoursSearch (some c) rest

/-- The time-reference test of the confidence scorer and the heuristic
detector. -/
def hasHoursRef (l : List Char) : Bool := hoursSearch none l

/-- Scanner for re.search of \\b\\d+\\b. -/
def numSearch (prev : Option Char) : List Char → Bool
  | [] => false
  | c :: rest =>
      (boundaryBefore prev && isDigitCh c &&
        boundaryAfter (rest.dropWhile isDigitCh)) || numSearch (some c) rest

/-- The bare numeric-reference test of the confidence scorer. -/
def hasNumRef (l : List Char) : Bool := numSearch none l

/-- Over-approximation of a token crossing the junction of an append:
some proper nonempty tail of the token leads the appended text. -/
def crossesInto (n s : List Char) : Bool :=
  (List.range n.length).any (fun k => decide (k ≠ 0) && leadsWith (n.drop k) s)

/-- Strong signal keywords of _calculate_confidence. -/
def strongKeywords : List (List Char) :=
  ["usage limit exceeded", "rate limit", "limit exceeded", "please wait",
   "quota exceeded", "cooldown", "temporarily disabled",
   "locked for"].map String.data

/-- Supporting keywords of _calculate_confidence. -/
def supportingKeywords : List (List Char) :=
  ["wait", "hours", "exceeded", "quota", "limit"].map String.data

/-- Error-context indicators of _calculate_confidence. -/
def errorIndicators : List (List Char) :=
  ["error", "warning", "alert", "failed", "denied"].map String.data

/-- Reinforcement words rescuing a generic match. -/
def reinforceWords : List (List Char) :=
  ["reached", "exceeded", "hit"].map String.data

/-- Neutral configuration terms penalized by the scorer. -/
def neutralTerms : List (List Char) :=
  ["configuration", "setting", "updated", "requested"].map String.data

/-- The generic matched texts that are penalized unless reinforced. -/
def genericMatches : List (List Char) :=
  ["limit", "usage limit", "wait"].map String.data

/-- Accumulation of the confidence score from the boolean signals and
counts that _calculate_confidence extracts from the line; the final
value is clamped into [0, 1].  Mirrors the sequential float updates of
the source with exact rationals. -/
def confidenceFromSignals (plenBonus : Rat) (strong : Bool) (hits : Nat)
    (hoursRef numRef : Bool) (err : Bool) (generic : Bool)
    (reinforce : Bool) (limitIn : Bool) (neutral : Bool) : Rat :=
  let c1 := 3/10 + plenBonus
  let c2 := c1 + (if strong then 2/5 else 0)
  let c3 := c2 + min (1/5) ((hits : Rat) * (1/20))
  let c4 := c3 + (if hoursRef then 1/5 else if numRef then 1/10 else 0)
  let c5 := c4 + (if err then 1/10 else 0)
  let c6 :=
    if generic then c5 - 1/5 + (if reinforce then 3/10 else 0)
    else max c5 (3/5)
  let c7 := if limitIn && reinforce then max c6 (3/5) else c6
  let c8 := c7 - (if neutral then 1/10 else 0)
  min 1 (max 0 c8)

/-- Embeds PatternDetector._calculate_confidence.  The pattern-length
bonus, keyword presences, numeric references, generic-match penalty
and neutral-term penalty are computed exactly as in the source on the
lowercased line and match, then folded by confidenceFromSignals. -/
def calculate_confidence (pattern matched_text full_line : List Char)
    (pattern_index : Nat) : Rat :=
  let normalized_line := lowerStr full_line
  let normalized_match := lowerStr matched_text
  confidenceFromSignals
    (if 25 ≤ pattern.length then 1/4
     else if 15 ≤ pattern.length then 3/20
     else if 8 ≤ pattern.length then 1/20 else 0)
    (strongKeywords.any (fun k => containsSub k normalized_line))
    ((supportingKeywords.filter (fun k => containsSub k normalized_line)).length)
    (hasHoursRef normalized_line)
    (hasNumRef normalized_line)
    (errorIndicators.any (fun k => containsSub k normalized_line))
    (genericMatches.contains (stripCh normalized_match))
    (reinforceWords.any (fun k => containsSub k normalized_line))
    (containsSub "limit".data normalized_line)
    (neutralTerms.any (fun k => containsSub k normalized_line))

/-- The strong-signal suffix of the monotonicity claim. -/
def strongSuffix : List Char := "quota exceeded, wait 5 hours".data

/-- System/log indicators of PatternDetector._is_system_message. -/
def systemIndicators : List String :=
  ["[DEBUG]", "[INFO]", "[WARN]", "[ERROR]", "[TRACE]", "claude-code:",
   "system:", "debug:", "log:", "timestamp:", "process id:", "thread:",
   "memory:", "loading", "initializing", "connecting"]

/-- Embeds PatternDetector._is_system_message: the line is lowercased
and stripped, and any lowercased indicator occurring in it flags the
line as system noise. -/
def is_system_message (line : List Char) : Bool :=
  let line_lower := stripCh (lowerStr line)
  systemIndicators.any (fun ind => containsSub (lowerStr ind.data) line_lower)

/-- A compiled detection pattern: its source text and its search
function, which stands for the compiled regular expression and returns
the matched text when it fires; the Python re engine is external code,
abstracted as this function. -/
structure CompiledPattern where
  source : List Char
  search : List Char → Option (List Char)

/-- State of the PatternDetector service: compiled patterns, the
confidence threshold from the monitoring configuration, the rolling
context buffer of numbered cleaned lines, the running line counter and
the detection history with its counters. -/
structure PatternDetector where
  compiled_patterns : List CompiledPattern
  confidence_threshold : Rat
  output_buffer : List (Nat × List Char)
  line_number : Nat
  detection_history : List LimitDetectionEvent
  detection_count : Nat
  last_detection_time : Option Rat

/-- Result record of one pattern check, from the DetectionResult
dataclass. -/
structure DetectionResult where
  matched : Bool
  pattern : Option (List Char)
  matched_text : Option (List Char)
  confidence : Rat
  line_number : Option Nat
  context_before : Option (List Char)
  context_after : Option (List Char)

/-- The all-false detection result. -/
def DetectionResult.noMatch : DetectionResult :=
  { matched := false, pattern := none, matched_text := none,
    confidence := 0, line_number := none, context_before := none,
    context_after := none }

/-- Embeds PatternDetector._get_context_before: up to three buffered
lines preceding the given line number, joined chronologically. -/
def PatternDetector.get_context_before (pd : PatternDetector)
    (line_number : Nat) : List Char :=
  List.intercalate ['\n']
    ((((pd.output_buffer.reverse.filter (fun q => q.1 < line_number)).take 3).map
      Prod.snd).reverse)

/-- Embeds PatternDetector._get_context_after. -/
def PatternDetector.get_context_after (pd : PatternDetector)
    (line_number : Nat) : List Char :=
  List.intercalate ['\n']
    (((pd.output_buffer.filter (fun q => line_number < q.1)).take 3).map
      Prod.snd)

/-- The fast-path literal phrases checked before the compiled patterns. -/
def fastPhrases : List (List Char) :=
  ["usage limit exceeded", "quota exceeded", "rate limit",
   "limit exceeded"].map String.data

/-- One step of the best-match fold over the compiled patterns: keep
the higher confidence, breaking ties toward the longer matched text. -/
def lineMatchStep (pd : PatternDetector) (line : List Char) (ln : Nat)
    (acc : DetectionResult × Rat) (ip : Nat × CompiledPattern) :
    DetectionResult × Rat :=
  match ip.2.search line with
  | none => acc
  | some m =>
      let conf := calculate_confidence ip.2.source m line ip.1
      if acc.2 < conf ∨
          (conf = acc.2 ∧ (acc.1.matched_text.getD []).length < m.length) then
        ({ matched := true
           pattern := some ip.2.source
           matched_text := some m
           confidence := conf
           line_number := some ln
           context_before := some (pd.get_context_before ln)
           context_after := some (pd.get_context_after ln) }, conf)
      else acc

/-- Embeds PatternDetector._heuristic_detection: keyword co-occurrence
scoring of common limit phrasings, suppressed on system messages. -/
def PatternDetector.heuristic_detection (pd : PatternDetector)
    (line : List Char) (ln : Nat) : Option DetectionResult :=
  let normalized := lowerStr line
  if is_system_message line then none
  else
    let has_usage_limit := containsSub "usage".data normalized &&
      containsSub "limit".data normalized
    let has_rate_limit := containsSub "rate limit".data normalized
    let has_quota_limit := containsSub "quota".data normalized &&
      containsSub "exceeded".data normalized
    let has_exceeded := containsSub "exceeded".data normalized ||
      containsSub "reached".data normalized
    let has_wait := containsSub "wait".data normalized
    let has_time_ref := hasHoursRef normalized
    let confidence : Rat :=
      if has_quota_limit then 85/100
      else if has_usage_limit && has_exceeded then 9/10
      else if has_usage_limit && has_wait && has_time_ref then 85/100
      else if has_rate_limit && (has_time_ref || has_exceeded) then 8/10
      else if has_wait && has_time_ref then 3/4
      else 0
    if confidence = 0 then none
    else some
      { matched := true
        pattern := some "heuristic".data
        matched_text := some (stripCh line)
        confidence := min 1 confidence
        line_number := some ln
        context_before := some (pd.get_context_before ln)
        context_after := some (pd.get_context_after ln) }

/-- Embeds PatternDetector._check_line_for_patterns: empty and system
lines are rejected before any matching, the literal fast phrases
return confidence 0.95 at once, then the best compiled-pattern match
is kept if it clears the threshold, with the heuristic detector as the
final fallback. -/
def PatternDetector.check_line_for_patterns (pd : PatternDetector)
    (line : List Char) (ln : Nat) : DetectionResult :=
  if stripCh line = [] then DetectionResult.noMatch
  else if is_system_message line then DetectionResult.noMatch
  else
    let normalized_line := lowerStr line
    match fastPhrases.find? (fun ph => containsSub ph normalized_line) with
    | some ph =>
        { matched := true
          pattern := some ph
          matched_text := some (stripCh line)
          confidence := 95/100
          line_number := some ln
          context_before := some (pd.get_context_before ln)
          context_after := some (pd.get_context_after ln) }
    | none =>
        let best := pd.compiled_patterns.enum.foldl
          (lineMatchStep pd line ln) (DetectionResult.noMatch, 0)
        if best.1.matched ∧ pd.confidence_threshold ≤ best.1.confidence then
          best.1
        else
          match pd.heuristic_detection line ln with
          | some h =>
              if pd.confidence_threshold ≤ h.confidence then h
              else DetectionResult.noMatch
          | none => DetectionResult.noMatch

/-- Embeds PatternDetector._check_text_block_for_patterns: the whole
block is matched to allow patterns spanning line breaks; a one-line
block that is a system message is rejected. -/
def PatternDetector.check_text_block_for_patterns (pd : PatternDetector)
    (text : List Char) (hint : Nat) : Option DetectionResult :=
  if stripCh text = [] then none
  else if !text.contains '\n' && is_system_message text then none
  else
    let best := pd.compiled_patterns.enum.foldl
      (lineMatchStep pd text hint) (DetectionResult.noMatch, 0)
    if best.1.matched ∧ pd.confidence_threshold ≤ best.1.confidence then
      some best.1
    else
      match pd.heuristic_detection text hint with
      | some h =>
          if pd.confidence_threshold ≤ h.confidence then some h
          else none
      | none => none

/-- Splits a text on newline characters, the model of str.split. -/
def splitLines : List Char → List (List Char)
  | [] => [[]]
  | c :: rest =>
      match splitLines rest with
      | [] => [[c]]
      | h :: t => if c = '\n' then [] :: h :: t else (c :: h) :: t

/-- Pushes one raw line into the rolling buffer: the line counter
advances, the cleaned line is appended, and the oldest entry is
evicted beyond the capacity of 100. -/
def PatternDetector.push_line (pd : PatternDetector) (line : List Char) :
    PatternDetector × (Nat × List Char) :=
  let n := pd.line_number + 1
  let cleaned := stripCh line
  let buf0 := pd.output_buffer ++ [(n, cleaned)]
  let buf := if 100 < buf0.length then buf0.drop (buf0.length - 100) else buf0
  ({ pd with line_number := n, output_buffer := buf }, (n, cleaned))

/-- Pushes a list of lines in order, returning the numbered cleaned
records. -/
def pushLines (pd : PatternDetector) :
    List (List Char) → PatternDetector × List (Nat × List Char)
  | [] => (pd, [])
  | l :: ls =>
      let r1 := pd.push_line l
      let r2 := pushLines r1.1 ls
      (r2.1, r1.2 :: r2.2)

/-- Embeds PatternDetector._create_detection_event; the uuid event id
is passed in, and the empty session id becomes None through the
pydantic validator. -/
def create_detection_event (r : DetectionResult) (now : Rat)
    (fresh_id : String) : LimitDetectionEvent :=
  { event_id := fresh_id
    detection_time := now
    matched_pattern := String.mk (r.pattern.getD [])
    matched_text := String.mk (r.matched_text.getD [])
    session_id := none
    cooldown_start := none
    cooldown_end := none
    cooldown_duration_hours := 5
    line_number := (r.line_number.map (fun n => (n : Int)))
    confidence := r.confidence
    context_before := r.context_before.map String.mk
    context_after := r.context_after.map String.mk
    processed := false
    action_taken := none
    error_occurred := false
    error_message := none }

/-- Embeds PatternDetector.detect_limit_message: all lines of the text
enter the buffer first, each cleaned line is checked in order, and a
whole-block check runs as fallback; on a hit the event is recorded in
the history with the counters updated. -/
def PatternDetector.detect_limit_message (pd : PatternDetector)
    (text : List Char) (now : Rat) (fresh_id : String) :
    PatternDetector × Option LimitDetectionEvent :=
  let pr := pushLines pd (splitLines text)
  let pd1 := pr.1
  let line_records := pr.2
  let recordHit := fun (res : DetectionResult) =>
    let event := create_detection_event res now fresh_id
    ({ pd1 with
       detection_history := pd1.detection_history ++ [event]
       detection_count := pd1.detection_count + 1
       last_detection_time := some now }, some event)
  match line_records.find?
      (fun r => (pd1.check_line_for_patterns r.2 r.1).matched) with
  | some r => recordHit (pd1.check_line_for_patterns r.2 r.1)
  | none =>
      if line_records ≠ [] then
        match pd1.check_text_block_for_patterns text
            ((line_records.map Prod.fst).getLast?.getD 0) with
        | some res => recordHit res
        | none => (pd1, none)
      else (pd1, none)

/-- The QueuedTask model of queued_task.py. -/
structure QueuedTask where
  task_id : String
  description : String
  created_at : Rat
  template_id : Option String
  persona_prompt : Option String
  guideline_prompt : Option String
  notes : Option String
  post_commands : List String
deriving DecidableEq, Repr

/-- Controller state enum of restart_controller.py. -/
inductive ControllerStateTag where
  | inactive
  | starting
  | monitoring
  | limit_detected
  | waiting
  | restarting
  | stopping
  | error
deriving DecidableEq, Repr

/-- Results of the external process-monitor calls made by the
controller.  launch_pid is the pid returned by a successful process
start, none standing for the start raising; send_ok tells whether
send_input succeeds for a given message; task_busy is the value of
should_wait_for_completion of the task monitor of the session at
hand. -/
structure ControllerEnv where
  launch_pid : Option Int
  send_ok : String → Bool
  task_busy : Bool

/-- State of the RestartController service.  Dictionaries are ordered
association lists like the insertion-ordered Python dicts; triggered
event callbacks and log writes are recorded in emitted_events
instead of executed; the process monitor, state manager and config
manager are external collaborators represented by ControllerEnv. -/
structure RestartController where
  state : ControllerStateTag
  active_sessions : List (String × MonitoringSession)
  waiting_periods : List (String × WaitingPeriod)
  detection_events : List LimitDetectionEvent
  timing_manager : TimingManager
  task_queue : List QueuedTask
  last_waiting_period : Option WaitingPeriod
  restart_count : Nat
  error_count : Nat
  emitted_events : List String

/-- In-place update of the object stored under a key, the model of
mutating an object held in a Python dict. -/
def updateAssoc {α : Type} (l : List (String × α)) (k : String) (v : α) :
    List (String × α) :=
  l.map (fun q => if q.1 = k then (k, v) else q)

/-- A possibly empty optional message contributes to the send sequence
only when it is a non-empty string, the Python truthiness test. -/
def optMsg (o : Option String) : List String :=
  match o with
  | none => []
  | some s => if s = "" then [] else [s]

/-- The ordered messages dispatched for one queued task: persona
prompt, guideline prompt, formatted notes, description, then the post
commands. -/
def sendSequence (t : QueuedTask) : List String :=
  optMsg t.persona_prompt ++ optMsg t.guideline_prompt ++
    (optMsg t.notes).map (fun n => "### 추가 메모\n" ++ n) ++
    [t.description] ++ t.post_commands

/-- The dispatch loop of _execute_task_queue: tasks are sent in order
until one fails; the failed task and everything after it remain. -/
def dispatchFrom (env : ControllerEnv) : List QueuedTask → List QueuedTask
  | [] => []
  | t :: rest =>
      if (sendSequence t).all env.send_ok then dispatchFrom env rest
      else t :: rest

/-- Embeds RestartController._execute_task_queue: the whole queue is
popped; on a failed send the unsent tail is prepended back to the now
empty queue and an error event is emitted. -/
def RestartController.execute_task_queue (env : ControllerEnv)
    (ctrl : RestartController) : RestartController :=
  let queued := ctrl.task_queue
  if queued = [] then ctrl
  else
    let remaining := dispatchFrom env queued
    if remaining = [] then { ctrl with task_queue := [] }
    else
      { ctrl with
        task_queue := remaining
        emitted_events := ctrl.emitted_events ++ ["error_occurred"] }

/-- Embeds RestartController._initiate_restart.  The uuid of the
cloned restart configuration is passed in; a failing process launch
takes the except branch, which records the error on the session and
moves the controller to the error state. -/
def RestartController.initiate_restart (env : ControllerEnv)
    (ctrl : RestartController) (session_id : String) (fresh_cfg_id : String)
    (now : Rat) : RestartController :=
  match List.lookup session_id ctrl.active_sessions with
  | none => ctrl
  | some session =>
      let ctrl1 := { ctrl with
        state := ControllerStateTag.restarting
        emitted_events := ctrl.emitted_events ++ ["restart_initiated"] }
      let restart_config :=
        match session.restart_config with
        | some c => c.clone fresh_cfg_id
        | none => RestartCommandConfiguration.create_default
            session.claude_command fresh_cfg_id
      match env.launch_pid with
      | none =>
          { ctrl1 with
            state := ControllerStateTag.error
            active_sessions := updateAssoc ctrl1.active_sessions session_id
              (session.record_error "Restart failed" now)
            emitted_events := ctrl1.emitted_events ++ ["error_occurred"] }
      | some pid =>
          let session2 :=
            if session.status = SessionStatus.waiting then
              { session with
                status := SessionStatus.active
                waiting_period_id := none
                last_activity := some now }
            else
              { session with
                status := SessionStatus.active
                last_activity := some now }
          let session3 := { session2 with
            claude_process_id := some pid
            restart_config := some restart_config
            restart_config_id := some restart_config.config_id
            restart_commands := restart_config.arguments }
          let ctrl2 := { ctrl1 with
            active_sessions := updateAssoc ctrl1.active_sessions session_id
              session3
            state := ControllerStateTag.monitoring
            restart_count := ctrl1.restart_count + 1 }
          let ctrl3 := ctrl2.execute_task_queue env
          { ctrl3 with
            emitted_events := ctrl3.emitted_events ++ ["restart_completed"] }

/-- Embeds RestartController._handle_waiting_completion: the restart
path runs for the session of the completed period, then the period
leaves the waiting_periods dictionary. -/
def RestartController.handle_waiting_completion (env : ControllerEnv)
    (ctrl : RestartController) (wp : WaitingPeriod) (fresh_cfg_id : String)
    (now : Rat) : RestartController :=
  match wp.session_id with
  | none => ctrl
  | some sid =>
      if (ctrl.active_sessions.map Prod.fst).contains sid then
        let ctrl1 := { ctrl with last_waiting_period := some wp }
        let ctrl2 := ctrl1.initiate_restart env sid fresh_cfg_id now
        { ctrl2 with
          waiting_periods := ctrl2.waiting_periods.filter
            (fun q => q.1 ≠ wp.period_id) }
      else ctrl

/-- Embeds RestartController._handle_process_crash: the crashed
session is marked stopped and the same restart path runs at once; no
waiting period is involved. -/
def RestartController.handle_process_crash (env : ControllerEnv)
    (ctrl : RestartController) (session_id : String) (fresh_cfg_id : String)
    (now : Rat) : RestartController :=
  match List.lookup session_id ctrl.active_sessions with
  | none => ctrl
  | some session =>
      let ctrl1 := { ctrl with
        active_sessions := updateAssoc ctrl.active_sessions session_id
          (session.mark_crashed now) }
      ctrl1.initiate_restart env session_id fresh_cfg_id now

/-- Embeds RestartController._handle_limit_detection.  A session
already waiting only counts the duplicate detection; otherwise, unless
the task monitor defers, the event starts its cooldown and
add_waiting_period is called with its period_id defaulted to None —
which the pydantic constructor rejects, so the remaining waiting
transition below the call is faithful to the source lines but
unreachable: the raised error propagates out of the handler. -/
def RestartController.handle_limit_detection (env : ControllerEnv)
    (ctrl : RestartController) (session_id : String)
    (event : LimitDetectionEvent) (now : Rat) :
    Except String RestartController :=
  match List.lookup session_id ctrl.active_sessions with
  | none => .ok ctrl
  | some session =>
      if session.status = SessionStatus.waiting then
        .ok { ctrl with
              active_sessions := updateAssoc ctrl.active_sessions session_id
                { session with detection_count := session.detection_count + 1 }
              detection_events := ctrl.detection_events ++ [event]
              last_waiting_period :=
                match session.waiting_period_id.bind
                    (fun wpid => List.lookup wpid ctrl.waiting_periods) with
                | some wp => some wp
                | none => ctrl.last_waiting_period }
      else if env.task_busy then .ok ctrl
      else do
        let event2 ← event.start_cooldown now
        let r ← ctrl.timing_manager.add_waiting_period none
          (some event2.cooldown_duration_hours) (some session.session_id)
          (some event2.event_id) true now
        let tm2 := (r.1.set_completion_callback r.2.period_id).1
        let session2 ← session.enter_waiting_period r.2.period_id now
        .ok { ctrl with
              timing_manager := tm2
              active_sessions := updateAssoc ctrl.active_sessions session_id
                session2
              detection_events := ctrl.detection_events ++ [event2]
              waiting_periods := ctrl.waiting_periods ++
                [(r.2.period_id, r.2)]
              last_waiting_period := some r.2
              state := ControllerStateTag.waiting
              emitted_events := ctrl.emitted_events ++ ["limit_detected"] }

/-- Embeds RestartController.start_monitoring up to the external
process launch: the session is created and validated, the restart
configuration snapshot is attached, the process starts and the session
becomes active. -/
def RestartController.start_monitoring (ctrl : RestartController)
    (env : ControllerEnv) (claude_cmd : String) (work_dir : Option String)
    (restart_commands : List String) (session_id fresh_cfg_id : String)
    (now : Rat) : Except String RestartController := do
  let cmd ← validateClaudeCommand claude_cmd
  let session0 : MonitoringSession :=
    { session_id := session_id
      start_time := now
      status := SessionStatus.inactive
      claude_process_id := none
      detection_count := 0
      last_activity := none
      claude_command := cmd
      working_directory := work_dir
      restart_commands := restart_commands
      restart_config_id := none
      waiting_period_id := none
      error_count := 0
      last_error := none
      restart_config := none }
  let restart_config0 := RestartCommandConfiguration.create_default
    claude_cmd fresh_cfg_id
  let restart_config :=
    match restart_commands with
    | [] => restart_config0
    | primary :: additional =>
        { restart_config0 with
          command_template := primary
          arguments := additional }
  let session1 := { session0 with
    restart_config := some restart_config
    restart_config_id := some restart_config.config_id
    restart_commands :=
      if restart_commands ≠ [] then restart_commands
      else restart_config.arguments }
  let pid ←
    match env.launch_pid with
    | some pid => Except.ok pid
    | none => Except.error "Failed to start monitoring"
  let session2 ← session1.start_monitoring pid now
  .ok { ctrl with
        active_sessions := ctrl.active_sessions ++ [(session_id, session2)]
        state := ControllerStateTag.monitoring }

/-- Embeds RestartController._stop_single_session: periods of the
session are cancelled in the timing manager and removed, the session
leaves the dictionary, and the controller goes inactive when no
session remains.  A cancel raising inside the timing manager is
swallowed by the stop_monitoring caller, modelled by keeping the
manager unchanged on that branch. -/
def RestartController.stop_single_session (ctrl : RestartController)
    (session_id : String) (now : Rat) : RestartController × Bool :=
  match List.lookup session_id ctrl.active_sessions with
  | none => (ctrl, false)
  | some _session =>
      let to_cancel := (ctrl.waiting_periods.filter
        (fun q => q.2.session_id = some session_id)).map Prod.fst
      let tm2 := to_cancel.foldl
        (fun tm pid =>
          match tm.cancel_waiting_period pid now with
          | .ok r => r.1
          | .error _ => tm) ctrl.timing_manager
      let remaining := ctrl.active_sessions.filter (fun q => q.1 ≠ session_id)
      ({ ctrl with
         timing_manager := tm2
         waiting_periods := ctrl.waiting_periods.filter
           (fun q => ¬(q.2.session_id = some session_id))
         active_sessions := remaining
         state := if remaining = [] then ControllerStateTag.inactive
           else ctrl.state }, true)

/-- The timing manager of a fresh controller under the default timing
configuration. -/
def initialTiming : TimingManager :=
  { active_periods := []
    completed_periods := []
    clock_drift_events := []
    check_frequency := 60
    clock_drift_tolerance := 30
    default_cooldown_hours := 5
    last_clock_check := 0
    completion_callbacks := [] }

/-- A fresh controller before any session starts. -/
def initialController : RestartController :=
  { state := ControllerStateTag.inactive
    active_sessions := []
    waiting_periods := []
    detection_events := []
    timing_manager := initialTiming
    task_queue := []
    last_waiting_period := none
    restart_count := 0
    error_count := 0
    emitted_events := [] }

/-- One orchestration event of the restart controller.  The Boolean
index tells whether process-crash callbacks are admitted.  The uuid
identifiers generated inside an operation (session and configuration
ids) are passed in with the freshness-conditions the uuid generator
guarantees, and the detect step carries the guard of
_check_for_limit_detections, which only feeds active or waiting
sessions to the handler. -/
inductive CtrlStep : Bool → RestartController → RestartController → Prop where
  | start {allow : Bool} (env : ControllerEnv) (ctrl ctrl2 : RestartController)
      (cmd : String) (wd : Option String) (rcmds : List String)
      (sid cfg : String) (now : Rat)
      (hfresh : sid ∉ ctrl.active_sessions.map Prod.fst)
      (heq : ctrl.start_monitoring env cmd wd rcmds sid cfg now = .ok ctrl2) :
      CtrlStep allow ctrl ctrl2
  | detect {allow : Bool} (env : ControllerEnv) (ctrl ctrl2 : RestartController)
      (sid : String) (ev : LimitDetectionEvent) (now : Rat)
      (hguard : ∀ s, List.lookup sid ctrl.active_sessions = some s →
        s.status = SessionStatus.active ∨ s.status = SessionStatus.waiting)
      (heq : RestartController.handle_limit_detection env ctrl sid ev now
        = .ok ctrl2) :
      CtrlStep allow ctrl ctrl2
  | complete {allow : Bool} (env : ControllerEnv) (ctrl : RestartController)
      (wp wpS : WaitingPeriod) (cfg : String) (now : Rat)
      (hmem : (wp.period_id, wpS) ∈ ctrl.waiting_periods)
      (hsid : wpS.session_id = wp.session_id) :
      CtrlStep allow ctrl (ctrl.handle_waiting_completion env wp cfg now)
  | crash (env : ControllerEnv) (ctrl : RestartController)
      (sid cfg : String) (now : Rat) :
      CtrlStep true ctrl (ctrl.handle_process_crash env sid cfg now)
  | stop {allow : Bool} (ctrl : RestartController) (sid : String) (now : Rat) :
      CtrlStep allow ctrl (ctrl.stop_single_session sid now).1

/-- Controller states reachable from the fresh controller through the
orchestration events. -/
inductive ReachableCtrl : Bool → RestartController → Prop where
  | init (allow : Bool) : ReachableCtrl allow initialController
  | step {allow : Bool} {ctrl ctrl2 : RestartController} :
      ReachableCtrl allow ctrl → CtrlStep allow ctrl ctrl2 →
      ReachableCtrl allow ctrl2

/-- Number of waiting periods held for one session. -/
def periodsFor (ctrl : RestartController) (sid : String) : Nat :=
  (ctrl.waiting_periods.filter (fun q => q.2.session_id = some sid)).length

/-- The structural invariant of the controller dictionaries: unique
keys, sessions stored under their own id, every period bound to a live
session, and each session holding at most one waiting period, none at
all unless it is in the waiting state. -/
def ControllerInv (ctrl : RestartController) : Prop :=
  (ctrl.active_sessions.map Prod.fst).Nodup ∧
  (ctrl.waiting_periods.map Prod.fst).Nodup ∧
  (∀ q ∈ ctrl.active_sessions, (q.2 : MonitoringSession).session_id = q.1) ∧
  (∀ q ∈ ctrl.waiting_periods, ∃ sid,
    (q.2 : WaitingPeriod).session_id = some sid ∧
      sid ∈ ctrl.active_sessions.map Prod.fst) ∧
  (∀ q ∈ ctrl.active_sessions, periodsFor ctrl q.1 ≤ 1 ∧
    ((q.2 : MonitoringSession).status ≠ SessionStatus.waiting →
      periodsFor ctrl q.1 = 0))

/-- Sample pattern detector: one pattern for "limit exceeded" whose
search stands for the compiled case-insensitive regex, with the
default 0.5 threshold. -/
def pdSample : PatternDetector :=
  { compiled_patterns :=
      [{ source := "limit exceeded".data
         search := fun l =>
           if containsSub "limit exceeded".data (lowerStr l) then
             some "limit exceeded".data
           else none }]
    confidence_threshold := 1/2
    output_buffer := []
    line_number := 0
    detection_history := []
    detection_count := 0
    last_detection_time := none }

/-- The bracketed debug line of the suppression scenario. -/
def debugLine : List Char := "[DEBUG] limit exceeded in test harness".data

/-- Sample queued tasks for the dispatch-failure scenario. -/
def taskA : QueuedTask :=
  { task_id := "queue_a", description := "do alpha", created_at := 0,
    template_id := none, persona_prompt := none, guideline_prompt := none,
    notes := none, post_commands := [] }

/-- Second task, the one whose send fails. -/
def taskB : QueuedTask :=
  { task_id := "queue_b", description := "do beta", created_at := 1,
    template_id := none, persona_prompt := none, guideline_prompt := none,
    notes := none, post_commands := [] }

/-- Third task, behind the failing one. -/
def taskC : QueuedTask :=
  { task_id := "queue_c", description := "do gamma", created_at := 2,
    template_id := none, persona_prompt := none, guideline_prompt := none,
    notes := none, post_commands := [] }

/-- Environment whose send_input fails exactly on the second task. -/
def envSendFail : ControllerEnv :=
  { launch_pid := some 4243
    send_ok := fun m => !(m == "do beta")
    task_busy := false }

/-- Controller holding the three-task queue. -/
def ctrlQueueSample : RestartController :=
  { initialController with task_queue := [taskA, taskB, taskC] }

/-- The waiting period produced by TimingManager.add_waiting_period
with auto_start: the constructed pending period after start_waiting,
spelled out for the characterization lemmas. -/
def startedPeriod (tm : TimingManager) (fresh : String) (dh : Rat)
    (sid eid : Option String) (now : Rat) : WaitingPeriod :=
  { period_id := fresh
    start_time := now
    duration_hours := dh
    end_time := some (now + dh * 3600)
    status := PeriodStatus.active
    associated_event_id := eid
    session_id := sid
    last_check_time := some now
    check_interval_seconds := tm.check_frequency
    auto_complete := true
    completion_callback_data := none
    show_progress := true
    notification_intervals := [1/2, 1/4, 1/10] }

/-- Environment where the process launch succeeds and the task monitor
is idle. -/
def envOk : ControllerEnv :=
  { launch_pid := some 777
    send_ok := fun _ => true
    task_busy := false }

/-- Controller holding one active monitored session. -/
def ctrlActiveSample : RestartController :=
  { initialController with
    state := ControllerStateTag.monitoring
    active_sessions := [("sess_a", sessSample)] }

/-- Controller whose session already waits on period wp_sample. -/
def ctrlWaitingSample : RestartController :=
  { initialController with
    state := ControllerStateTag.waiting
    active_sessions := [("sess_a",
      { sessSample with
        status := SessionStatus.waiting
        waiting_period_id := some "wp_0" })]
    waiting_periods := [("wp_0",
      startedPeriod initialTiming "wp_0" 5 (some "sess_a") none 0)] }

/-- The session as rebuilt by _initiate_restart after a successful
launch: back to active, bound to the new process and carrying the
cloned restart configuration. -/
def restartedSession (session : MonitoringSession) (pid : Int)
    (rc : RestartCommandConfiguration) (now : Rat) : MonitoringSession :=
  let session2 :=
    if session.status = SessionStatus.waiting then
      { session with
        status := SessionStatus.active
        waiting_period_id := none
        last_activity := some now }
    else
      { session with
        status := SessionStatus.active
        last_activity := some now }
  { session2 with
    claude_process_id := some pid
    restart_config := some rc
    restart_config_id := some rc.config_id
    restart_commands := rc.arguments }

/-- Successful result of a fallible controller operation, with the
previous controller as the fallback. -/
def okOr (d : RestartController) : Except String RestartController →
    RestartController
  | .ok c => c
  | .error _ => d

/-- A started controller: one session begun on the fresh controller. -/
def ctrlC1 : RestartController :=
  okOr initialController
    (initialController.start_monitoring envOk "claude" none [] "sess_a"
      "cfg_1" 0)

/-- The session stored after the start step. -/
def sessA1 : MonitoringSession :=
  (List.lookup "sess_a" ctrlC1.active_sessions).getD sessSample

/-!
Theorems.  Helper lemmas come first, then one theorem per claim with
its witness or counterexample.
-/

/-- Lowercasing never turns a character into whitespace or back. -/
theorem isSpaceCh_toLowerCh (c : Char) : isSpaceCh (toLowerCh c) = isSpaceCh c := by
  unfold toLowerCh
  split
  · rename_i h
    simp [Char.isUpper] at h
    obtain ⟨h1, h2⟩ := h
    have ha : (65 : Nat) ≤ c.toNat := by exact_mod_cast h1
    have hb : c.toNat ≤ 90 := by exact_mod_cast h2
    interval_cases h : c.toNat
    all_goals (
      have hc : c = Char.ofNat c.toNat := (Char.ofNat_toNat c).symm
      rw [h] at hc
      subst hc
      decide)
  · rfl

/-- C10: for every waiting period whose status is completed or
cancelled, get_progress returns exactly 1 regardless of how much of
the duration elapsed; in particular a period cancelled immediately
after starting reports full progress. -/
theorem progress_one_when_completed_or_cancelled
    (wp : WaitingPeriod) (now : Rat)
    (h : wp.status = PeriodStatus.completed ∨ wp.status = PeriodStatus.cancelled) :
    wp.get_progress now = 1 := by
  have hnp : ¬ wp.status = PeriodStatus.pending := by
    rcases h with h | h <;> simp [h]
  unfold WaitingPeriod.get_progress
  rw [if_neg hnp, if_pos h]

/-- C10 witness: a five-hour period cancelled one second after start
reports progress 1. -/
theorem progress_one_when_completed_or_cancelled_witness :
    wpCancelledEarly.get_progress 1 = 1 :=
  progress_one_when_completed_or_cancelled wpCancelledEarly 1 (Or.inr rfl)

/-- C8 counterexample: get_elapsed_seconds is not clamped, so with a
probe time earlier than the recorded start time the reported elapsed
time is negative, refuting the unconditional non-negativity part of
the claim. -/
theorem elapsed_seconds_negative_counterexample :
    wpFutureStart.get_elapsed_seconds 0 < 0 := by
  unfold WaitingPeriod.get_elapsed_seconds WaitingPeriod.get_elapsed_time
  rw [if_neg (by decide)]
  norm_num [wpFutureStart]

/-- C8 amended: remaining time is always non-negative; elapsed time is
non-negative whenever the probe time is not earlier than the start
time (the source applies no clamp to it); progress is clamped into
[0, 1] on every state where the end time lies after the start time;
and validate_duration accepts exactly the durations 0 < d ≤ 24 hours. -/
theorem waiting_period_numeric_semantics :
    (∀ (wp : WaitingPeriod) (now : Rat), 0 ≤ wp.get_remaining_seconds now) ∧
    (∀ (wp : WaitingPeriod) (now : Rat),
        wp.start_time ≤ now → 0 ≤ wp.get_elapsed_seconds now) ∧
    (∀ (wp : WaitingPeriod) (now : Rat), wp.end_after_start = true →
        0 ≤ wp.get_progress now ∧ wp.get_progress now ≤ 1) ∧
    (∀ d : Rat, WaitingPeriod.validate_duration d = .ok d ↔ 0 < d ∧ d ≤ 24) := by
  refine ⟨?_, ?_, ?_, ?_⟩
  · intro wp now
    unfold WaitingPeriod.get_remaining_seconds
    cases h : wp.get_remaining_time now with
    | none => simp
    | some r => simp
  · intro wp now hle
    unfold WaitingPeriod.get_elapsed_seconds WaitingPeriod.get_elapsed_time
    split
    · exact le_refl 0
    · linarith
  · intro wp now _
    unfold WaitingPeriod.get_progress
    split
    · norm_num
    · split
      · norm_num
      · cases wp.end_time with
        | none => norm_num
        | some e =>
            refine ⟨le_min (by norm_num) (le_max_left 0 _), min_le_left 1 _⟩
  · intro d
    unfold WaitingPeriod.validate_duration
    split
    · rename_i h
      constructor
      · intro hc
        exact absurd hc (by simp)
      · intro hc
        linarith [hc.1]
    · split
      · rename_i h1 h2
        constructor
        · intro hc
          exact absurd hc (by simp)
        · intro hc
          linarith [hc.2]
      · rename_i h1 h2
        simp only [not_le] at h1
        simp only [not_lt] at h2
        simp [h1, h2]

/-- C8 witness: the amended bounds evaluated on a concrete period and
probe time, with every hypothesis discharged by computation. -/
theorem waiting_period_numeric_semantics_witness :
    0 ≤ wpCancelledEarly.get_remaining_seconds 1 ∧
    0 ≤ wpFutureStart.get_elapsed_seconds 200 ∧
    (0 ≤ wpFutureStart.get_progress 200 ∧ wpFutureStart.get_progress 200 ≤ 1) ∧
    (WaitingPeriod.validate_duration 5 = .ok 5 ↔ 0 < (5 : Rat) ∧ (5 : Rat) ≤ 24) :=
  ⟨waiting_period_numeric_semantics.1 wpCancelledEarly 1,
   waiting_period_numeric_semantics.2.1 wpFutureStart 200
     (by norm_num [wpFutureStart]),
   waiting_period_numeric_semantics.2.2.1 wpFutureStart 200
     (by norm_num [wpFutureStart, WaitingPeriod.end_after_start]),
   waiting_period_numeric_semantics.2.2.2 5⟩

/-- An active, expired, auto-completing period is completed by
check_and_complete, which also stamps the check time. -/
theorem check_and_complete_expires (p : WaitingPeriod) (now e : Rat)
    (hact : p.status = PeriodStatus.active) (hauto : p.auto_complete = true)
    (hend : p.end_time = some e) (hnow : e ≤ now) :
    p.check_and_complete now =
      ({ p with status := PeriodStatus.completed, last_check_time := some now },
       true) := by
  unfold WaitingPeriod.check_and_complete
  have hia : p.is_active = true := by simp [WaitingPeriod.is_active, hact]
  rw [hia]
  simp only [Bool.not_true, Bool.false_eq_true, if_false]
  have hexp : ((p.update_check_time now).is_expired now ∧
      (p.update_check_time now).auto_complete) := by
    constructor
    · unfold WaitingPeriod.is_expired
      have : (p.update_check_time now).is_active = true := by
        simp [WaitingPeriod.is_active, WaitingPeriod.update_check_time, hact]
      rw [this]
      simp [WaitingPeriod.update_check_time, hend]
      exact hnow
    · simpa [WaitingPeriod.update_check_time] using hauto
  rw [if_pos hexp]
  simp [WaitingPeriod.update_check_time]

/-- Entries whose key never occurs in the scanned list contribute
nothing to the completion results of checkLoop, and a callback
registered under such a key survives the scan. -/
theorem checkLoop_absent_key (now : Rat) (pid : String) :
    ∀ (L : List (String × WaitingPeriod)) (cbs : List String),
      pid ∉ L.map Prod.fst →
      ((checkLoop now L cbs).2.2.1.count pid = 0 ∧
       (checkLoop now L cbs).2.2.2.1.count pid = 0 ∧
       pid ∉ (checkLoop now L cbs).1.map Prod.fst ∧
       (pid ∈ cbs → pid ∈ (checkLoop now L cbs).2.2.2.2)) := by
  intro L
  induction L with
  | nil => intro cbs _; simp [checkLoop]
  | cons hd rest ih =>
      intro cbs hnm
      obtain ⟨k, q⟩ := hd
      have hk : pid ≠ k := by
        intro h; exact hnm (by simp [h])
      have hrest : pid ∉ rest.map Prod.fst := by
        intro h; exact hnm (by simp [h])
      unfold checkLoop
      cases hdone : (q.check_and_complete now).2 with
      | true =>
          simp only [hdone, if_true]
          obtain ⟨h1, h2, h3, h4⟩ := ih (cbs.erase k) hrest
          refine ⟨?_, ?_, h3, ?_⟩
          · simp [List.count_cons, h1, hk]
          · rcases hc : cbs.contains k with _ | _ <;>
              simp [hc, h2, List.count_cons, hk]
          · intro hin
            exact h4 ((List.mem_erase_of_ne hk).mpr hin)
      | false =>
          simp only [hdone, Bool.false_eq_true, if_false]
          obtain ⟨h1, h2, h3, h4⟩ := ih cbs hrest
          exact ⟨h1, h2, by simp [hk, h3], h4⟩

/-- Scanning a list that contains one expired period under a unique key
with a registered callback completes it exactly once, fires its
callback exactly once, removes it from the active entries and appends
its completed form to the completed list. -/
theorem checkLoop_completes_once (now : Rat) (pid : String) (p : WaitingPeriod)
    (e : Rat) (hact : p.status = PeriodStatus.active)
    (hauto : p.auto_complete = true) (hend : p.end_time = some e)
    (hnow : e ≤ now) :
    ∀ (L : List (String × WaitingPeriod)) (cbs : List String),
      (L.map Prod.fst).Nodup → (pid, p) ∈ L → pid ∈ cbs →
      ((checkLoop now L cbs).2.2.1.count pid = 1 ∧
       (checkLoop now L cbs).2.2.2.1.count pid = 1 ∧
       pid ∉ (checkLoop now L cbs).1.map Prod.fst ∧
       ({ p with status := PeriodStatus.completed, last_check_time := some now }
          ∈ (checkLoop now L cbs).2.1)) := by
  intro L
  induction L with
  | nil => intro cbs _ hmem _; simp at hmem
  | cons hd rest ih =>
      intro cbs hnd hmem hcb
      obtain ⟨k, q⟩ := hd
      rw [List.map_cons] at hnd
      obtain ⟨hknotin, hndrest⟩ := List.nodup_cons.mp hnd
      rcases List.mem_cons.mp hmem with hhd | htl
      · cases hhd
        have hrest : pid ∉ rest.map Prod.fst := hknotin
        obtain ⟨a1, a2, a3, a4⟩ := checkLoop_absent_key now pid rest
          (cbs.erase pid) hrest
        have hcontains : cbs.contains pid = true := by
          exact List.elem_eq_true_of_mem hcb
        unfold checkLoop
        rw [check_and_complete_expires p now e hact hauto hend hnow]
        simp only [if_true, hcontains]
        refine ⟨?_, ?_, a3, ?_⟩
        · simp [List.count_cons, a1]
        · simp [List.count_cons, a2]
        · exact List.mem_cons_self _ _
      · have hpidin : pid ∈ rest.map Prod.fst :=
          List.mem_map.mpr ⟨(pid, p), htl, rfl⟩
        have hk : k ≠ pid := fun h => hknotin (h ▸ hpidin)
        unfold checkLoop
        cases hdone : (q.check_and_complete now).2 with
        | true =>
            simp only [hdone, if_true]
            have hcb1 : pid ∈ cbs.erase k :=
              (List.mem_erase_of_ne (fun h => hk h.symm)).mpr hcb
            obtain ⟨b1, b2, b3, b4⟩ := ih (cbs.erase k) hndrest htl hcb1
            refine ⟨?_, ?_, b3, ?_⟩
            · simp [List.count_cons, b1, hk]
            · rcases hc : cbs.contains k with _ | _ <;>
                simp [hc, b2, List.count_cons, hk]
            · exact List.mem_cons_of_mem _ b4
        | false =>
            simp only [hdone, Bool.false_eq_true, if_false]
            obtain ⟨b1, b2, b3, b4⟩ := ih cbs hndrest htl hcb
            refine ⟨b1, b2, ?_, b4⟩
            simp only [List.map_cons, List.mem_cons]
            rintro (h | h)
            · exact hk h.symm
            · exact b3 h

/-- C3: for every waiting period whose end time has passed, calling
check_waiting_periods twice in succession completes the period and
invokes its registered completion callback exactly once; the second
call neither completes it nor fires its callback again, and the
completed record survives both calls. -/
theorem check_waiting_periods_idempotent_completion
    (tm : TimingManager) (pid : String) (p : WaitingPeriod)
    (e now1 now2 : Rat)
    (hnd : (tm.active_periods.map Prod.fst).Nodup)
    (hmem : (pid, p) ∈ tm.active_periods)
    (hact : p.status = PeriodStatus.active)
    (hauto : p.auto_complete = true)
    (hend : p.end_time = some e)
    (hnow : e ≤ now1)
    (hcb : pid ∈ tm.completion_callbacks) :
    ((tm.check_waiting_periods now1).2.1.count pid = 1 ∧
     (tm.check_waiting_periods now1).2.2.count pid = 1) ∧
    ({ p with status := PeriodStatus.completed, last_check_time := some now1 }
        ∈ (tm.check_waiting_periods now1).1.completed_periods) ∧
    (pid ∉ ((tm.check_waiting_periods now1).1.check_waiting_periods now2).2.1 ∧
     pid ∉ ((tm.check_waiting_periods now1).1.check_waiting_periods now2).2.2) ∧
    ({ p with status := PeriodStatus.completed, last_check_time := some now1 }
        ∈ ((tm.check_waiting_periods now1).1.check_waiting_periods
            now2).1.completed_periods) := by
  obtain ⟨c1, c2, c3, c4⟩ :=
    checkLoop_completes_once now1 pid p e hact hauto hend hnow
      tm.active_periods tm.completion_callbacks hnd hmem hcb
  obtain ⟨d1, d2, d3, _⟩ :=
    checkLoop_absent_key now2 pid
      (checkLoop now1 tm.active_periods tm.completion_callbacks).1
      (checkLoop now1 tm.active_periods tm.completion_callbacks).2.2.2.2 c3
  refine ⟨⟨c1, c2⟩, ?_, ⟨?_, ?_⟩, ?_⟩
  · unfold TimingManager.check_waiting_periods
    exact List.mem_append_right _ c4
  · exact List.count_eq_zero.mp d1
  · exact List.count_eq_zero.mp d2
  · unfold TimingManager.check_waiting_periods
    exact List.mem_append_left _ (List.mem_append_right _ c4)

/-- C3 witness: one expired five-hour period with a registered callback,
checked at times 20000 and 20060. -/
theorem check_waiting_periods_idempotent_completion_witness :
    ((tmExpiredSample.check_waiting_periods 20000).2.1.count "wait_x" = 1 ∧
     (tmExpiredSample.check_waiting_periods 20000).2.2.count "wait_x" = 1) ∧
    ({ wpExpiredSample with
        status := PeriodStatus.completed, last_check_time := some 20000 }
        ∈ (tmExpiredSample.check_waiting_periods 20000).1.completed_periods) ∧
    ("wait_x" ∉
        ((tmExpiredSample.check_waiting_periods 20000).1.check_waiting_periods
          20060).2.1 ∧
     "wait_x" ∉
        ((tmExpiredSample.check_waiting_periods 20000).1.check_waiting_periods
          20060).2.2) ∧
    ({ wpExpiredSample with
        status := PeriodStatus.completed, last_check_time := some 20000 }
        ∈ ((tmExpiredSample.check_waiting_periods 20000).1.check_waiting_periods
            20060).1.completed_periods) :=
  check_waiting_periods_idempotent_completion tmExpiredSample "wait_x"
    wpExpiredSample 18000 20000 20060
    (by decide) (List.mem_cons_self _ _) rfl rfl rfl (by norm_num)
    (List.mem_cons_self _ _)

/-- C5: evaluation of check_clock_drift on a backward clock jump.  The
wall clock moved from 1000 to 900 against an expected 60-second
interval, a drift event of 160 seconds is recorded, and the active
period's end time is shortened from 5000 to 4840 even though the drift
was a backward jump, because the drift amount is stored as an absolute
value and the backward branch of _adjust_periods_for_drift is
unreachable; the inline comments of the source say a backward jump
must increase the remaining time. -/
theorem clock_drift_backward_jump_shortens_remaining :
    (tmDriftSample.check_clock_drift 900).2 =
      some { detection_time := 900, drift_seconds := 160, previous_time := 1000,
             current_time := 900, action_taken := "adjusting_periods" } ∧
    (tmDriftSample.check_clock_drift 900).1.active_periods.map
        (fun (q : String × WaitingPeriod) => (q.1, q.2.end_time)) =
      [("wait_d", some 4840)] ∧
    ((4840 : Rat) < 5000) := by
  have habs : |(900 : Rat) - 1000 - 60| = 160 := by
    rw [show (900 : Rat) - 1000 - 60 = -160 by norm_num, abs_neg]
    exact abs_of_nonneg (by norm_num)
  have hcond : ((160 : Rat) > 30) := by norm_num
  refine ⟨?_, ?_, by norm_num⟩
  · simp only [TimingManager.check_clock_drift, tmDriftSample]
    norm_num [habs]
  · simp only [TimingManager.check_clock_drift, tmDriftSample]
    norm_num [habs, TimingManager.adjust_periods_for_drift, wpDriftSample,
      WaitingPeriod.is_active]

/-- Serializing a period status and parsing it back is the identity. -/
theorem periodStatus_roundtrip (st : PeriodStatus) :
    PeriodStatus.ofStr st.toStr = .ok st := by
  cases st <;> rfl

/-- Serializing a session status and parsing it back is the identity. -/
theorem sessionStatus_roundtrip (st : SessionStatus) :
    SessionStatus.ofStr st.toStr = .ok st := by
  cases st <;> rfl

/-- C9: for every waiting period, session and detection event that
satisfies its own model validators, serializing with to_dict and
reloading with from_dict reproduces the object: every field including
status, ids and timestamps is reproduced exactly, the sole change
being that the period's notification intervals come back sorted
descending by the validator. -/
theorem serialization_roundtrip :
    (∀ (wp : WaitingPeriod) (now : Rat),
      0 < wp.duration_hours → wp.duration_hours ≤ 24 →
      1 ≤ wp.check_interval_seconds → wp.check_interval_seconds ≤ 3600 →
      (∀ f ∈ wp.notification_intervals, 0 < f ∧ f ≤ 1) →
      WaitingPeriod.from_dict (wp.to_dict now) =
        .ok { wp with notification_intervals :=
                sortNotificationIntervals wp.notification_intervals }) ∧
    (∀ (s : MonitoringSession) (now : Rat),
      stripCh s.claude_command.data = s.claude_command.data →
      s.claude_command.data ≠ [] →
      MonitoringSession.from_dict (s.to_dict now) = .ok s) ∧
    (∀ (e : LimitDetectionEvent) (now : Rat),
      stripCh e.matched_pattern.data = e.matched_pattern.data →
      e.matched_pattern.data ≠ [] →
      stripCh e.matched_text.data = e.matched_text.data →
      e.matched_text.data ≠ [] →
      (∀ sid, e.session_id = some sid →
        stripCh sid.data = sid.data ∧ sid.data ≠ []) →
      0 < e.cooldown_duration_hours → e.cooldown_duration_hours ≤ 24 →
      0 ≤ e.confidence → e.confidence ≤ 1 →
      (∀ cs ce, e.cooldown_start = some cs → e.cooldown_end = some ce →
        cs < ce) →
      (∀ n, e.line_number = some n → 1 ≤ n) →
      LimitDetectionEvent.from_dict (e.to_dict now) = .ok e) := by
  refine ⟨?_, ?_, ?_⟩
  · intro wp now h1 h2 h3 h4 h5
    have e1 : WaitingPeriod.validate_duration wp.duration_hours =
        .ok wp.duration_hours := by
      unfold WaitingPeriod.validate_duration
      rw [if_neg (not_le.mpr h1), if_neg (not_lt.mpr h2)]
    have e2 : WaitingPeriod.validate_check_interval wp.check_interval_seconds =
        .ok wp.check_interval_seconds := by
      unfold WaitingPeriod.validate_check_interval
      rw [if_pos ⟨h3, h4⟩]
    have e3 : WaitingPeriod.validate_notification_intervals
        wp.notification_intervals =
        .ok (sortNotificationIntervals wp.notification_intervals) := by
      unfold WaitingPeriod.validate_notification_intervals
      by_cases hnil : wp.notification_intervals = []
      · rw [if_pos hnil, hnil]
        simp [sortNotificationIntervals]
      · have hall : wp.notification_intervals.all
            (fun f => decide (0 < f ∧ f ≤ 1)) = true :=
          List.all_eq_true.mpr (fun f hf => decide_eq_true (h5 f hf))
        rw [if_neg hnil, if_pos hall]
    simp only [WaitingPeriod.from_dict, WaitingPeriod.to_dict,
      periodStatus_roundtrip, e1, e2, e3]
    rfl
  · intro s now h1 h2
    have e1 : validateClaudeCommand s.claude_command = .ok s.claude_command := by
      unfold validateClaudeCommand
      rw [h1, if_neg h2]
    simp only [MonitoringSession.from_dict, MonitoringSession.to_dict,
      sessionStatus_roundtrip, e1]
    rfl
  · intro e now hp1 hp2 ht1 ht2 hsid hd1 hd2 hc1 hc2 hcool hline
    have e1 : validateNonEmpty e.matched_pattern = .ok e.matched_pattern := by
      unfold validateNonEmpty
      rw [hp1, if_neg hp2]
    have e2 : validateNonEmpty e.matched_text = .ok e.matched_text := by
      unfold validateNonEmpty
      rw [ht1, if_neg ht2]
    have e3 : validateSessionId e.session_id = e.session_id := by
      unfold validateSessionId
      cases hs : e.session_id with
      | none => rfl
      | some sid =>
          obtain ⟨hstrip, hne⟩ := hsid sid hs
          simp [hstrip, hne]
    have e4 : validateCooldownDuration e.cooldown_duration_hours =
        .ok e.cooldown_duration_hours := by
      unfold validateCooldownDuration
      rw [if_neg (not_le.mpr hd1), if_neg (not_lt.mpr hd2)]
    have e5 : validateConfidence e.confidence = .ok e.confidence := by
      unfold validateConfidence
      rw [if_pos ⟨hc1, hc2⟩]
    have e6 : validateCooldownOrder e.cooldown_start e.cooldown_end =
        .ok () := by
      unfold validateCooldownOrder
      cases hcs : e.cooldown_start with
      | none => cases e.cooldown_end <;> rfl
      | some cs =>
          cases hce : e.cooldown_end with
          | none => rfl
          | some ce => simp [if_neg (not_le.mpr (hcool cs ce hcs hce))]
    have e7 : validateLineNumber e.line_number = .ok () := by
      unfold validateLineNumber
      cases hn : e.line_number with
      | none => rfl
      | some n => simp [if_neg (not_lt.mpr (hline n hn))]
    simp only [LimitDetectionEvent.from_dict, LimitDetectionEvent.to_dict,
      e1, e2, e4, e5, e6, e7]
    rw [e3]
    rfl

/-- C9 witness: the three round trips evaluated on a concrete period,
session and event. -/
theorem serialization_roundtrip_witness :
    WaitingPeriod.from_dict (wpExpiredSample.to_dict 100) =
      .ok { wpExpiredSample with notification_intervals :=
              sortNotificationIntervals wpExpiredSample.notification_intervals } ∧
    MonitoringSession.from_dict (sessSample.to_dict 100) = .ok sessSample ∧
    LimitDetectionEvent.from_dict (evtSample.to_dict 100) = .ok evtSample :=
  ⟨serialization_roundtrip.1 wpExpiredSample 100
      (by norm_num [wpExpiredSample])
      (by norm_num [wpExpiredSample])
      (by decide) (by decide)
      (by
        intro f hf
        simp [wpExpiredSample] at hf
        rcases hf with h | h | h <;> subst h <;> norm_num),
   serialization_roundtrip.2.1 sessSample 100 (by decide) (by decide),
   serialization_roundtrip.2.2 evtSample 100
      (by decide) (by decide) (by decide) (by decide)
      (by
        intro sid h
        simp [evtSample] at h
        subst h
        exact ⟨by decide, by decide⟩)
      (by norm_num [evtSample]) (by norm_num [evtSample])
      (by norm_num [evtSample]) (by norm_num [evtSample])
      (by intro cs ce h1 h2; simp [evtSample] at h1)
      (by
        intro n h
        simp [evtSample] at h
        subst h
        norm_num)⟩

/-- lowerStr distributes over append. -/
theorem lowerStr_append (l s : List Char) :
    lowerStr (l ++ s) = lowerStr l ++ lowerStr s :=
  List.map_append _ _ _

/-- The strong suffix is already lowercase. -/
theorem lower_strongSuffix : lowerStr strongSuffix = strongSuffix := by decide

/-- The empty token occurs in every text. -/
theorem containsSub_nil (s : List Char) : containsSub [] s = true := by
  induction s with
  | nil => rfl
  | cons c t ih => simp [containsSub, leadsWith]

/-- A leading segment stays one after appending on the right. -/
theorem leadsWith_append (n : List Char) :
    ∀ (l s : List Char), leadsWith n l = true → leadsWith n (l ++ s) = true := by
  induction n with
  | nil => intro l s _; rfl
  | cons a as ih =>
      intro l s h
      cases l with
      | nil => simp [leadsWith] at h
      | cons b bs =>
          simp only [leadsWith, Bool.and_eq_true] at h
          simp only [List.cons_append, leadsWith, Bool.and_eq_true]
          exact ⟨h.1, ih bs s h.2⟩

/-- An occurrence inside the left part survives the append. -/
theorem containsSub_append_left (n : List Char) :
    ∀ (l s : List Char), containsSub n l = true →
      containsSub n (l ++ s) = true := by
  intro l
  induction l with
  | nil =>
      intro s h
      simp [containsSub] at h
      simp [h, containsSub_nil]
  | cons b bs ih =>
      intro s h
      simp only [containsSub, Bool.or_eq_true] at h
      rcases h with h | h
      · have := leadsWith_append n (b :: bs) s h
        simp only [List.cons_append] at this ⊢
        simp [containsSub, this]
      · simp only [List.cons_append, containsSub, Bool.or_eq_true]
        exact Or.inr (ih s h)

/-- An occurrence inside the right part survives the append. -/
theorem containsSub_append_right (n : List Char) :
    ∀ (l s : List Char), containsSub n s = true →
      containsSub n (l ++ s) = true := by
  intro l
  induction l with
  | nil => intro s h; exact h
  | cons b bs ih =>
      intro s h
      simp only [List.cons_append, containsSub, Bool.or_eq_true]
      exact Or.inr (ih s h)

/-- A leading segment of an appended text either fits in the left part
or overruns it into the right part. -/
theorem leadsWith_append_cases (n : List Char) :
    ∀ (l s : List Char), leadsWith n (l ++ s) = true →
      leadsWith n l = true ∨
        (l.length < n.length ∧ leadsWith (n.drop l.length) s = true) := by
  induction n with
  | nil => intro l s _; exact Or.inl rfl
  | cons a as ih =>
      intro l s h
      cases l with
      | nil => exact Or.inr ⟨Nat.succ_pos _, h⟩
      | cons b bs =>
          simp only [List.cons_append, leadsWith, Bool.and_eq_true] at h
          rcases ih bs s h.2 with h1 | ⟨h1, h2⟩
          · exact Or.inl (by simp [leadsWith, h.1, h1])
          · refine Or.inr ⟨by simpa using Nat.succ_lt_succ h1, ?_⟩
            simpa using h2

/-- An occurrence in an appended text lies in the left part, in the
right part, or crosses the junction. -/
theorem containsSub_append_cases (n : List Char) :
    ∀ (l s : List Char), containsSub n (l ++ s) = true →
      containsSub n l = true ∨ containsSub n s = true ∨
        crossesInto n s = true := by
  intro l
  induction l with
  | nil => intro s h; exact Or.inr (Or.inl h)
  | cons c t ih =>
      intro s h
      simp only [List.cons_append, containsSub, Bool.or_eq_true] at h
      rcases h with h | h
      · rcases leadsWith_append_cases n (c :: t) s (by simpa using h) with
          h1 | ⟨h1, h2⟩
        · exact Or.inl (by simp [containsSub, h1])
        · refine Or.inr (Or.inr ?_)
          unfold crossesInto
          refine List.any_eq_true.mpr ⟨(c :: t).length, List.mem_range.mpr h1, ?_⟩
          simp only [List.length_cons] at h2 ⊢
          simp [h2]
      · rcases ih s h with h1 | h1
        · exact Or.inl (by simp [containsSub, h1])
        · exact Or.inr h1

/-- Keyword presence over any list of tokens is monotone under append. -/
theorem anyContains_mono (ks : List (List Char)) (l s : List Char)
    (h : ks.any (fun k => containsSub k l) = true) :
    ks.any (fun k => containsSub k (l ++ s)) = true := by
  obtain ⟨k, hk, hck⟩ := List.any_eq_true.mp h
  exact List.any_eq_true.mpr ⟨k, hk, containsSub_append_left k l s hck⟩

/-- A non-digit head neutralizes the leading boundary, so the scanner
succeeds from any previous character once it succeeds past the head. -/
theorem hoursSearch_head_nondigit (c : Char) (t : List Char)
    (hc : isDigitCh c = false) (ht : hoursSearch (some c) t = true)
    (pr : Option Char) : hoursSearch pr (c :: t) = true := by
  simp [hoursSearch, hc, ht]

/-- The hours scanner fires on the strong suffix from any context. -/
theorem hoursSearch_strongSuffix (pr : Option Char) :
    hoursSearch pr strongSuffix = true :=
  hoursSearch_head_nondigit 'q' _ (by decide) (by decide) pr

/-- A text on which the scanner fires from every context keeps firing
after prepending arbitrary text. -/
theorem hoursSearch_append (s : List Char)
    (hs : ∀ pr, hoursSearch pr s = true) :
    ∀ (l : List Char) (pr : Option Char), hoursSearch pr (l ++ s) = true := by
  intro l
  induction l with
  | nil => intro pr; exact hs pr
  | cons c t ih =>
      intro pr
      simp only [List.cons_append, hoursSearch, List.append_eq]
      rw [ih (some c)]
      simp

/-- The time-reference test fires on anything extended by the strong
suffix. -/
theorem hasHoursRef_append_strong (l : List Char) :
    hasHoursRef (l ++ lowerStr strongSuffix) = true := by
  rw [lower_strongSuffix]
  exact hoursSearch_append strongSuffix hoursSearch_strongSuffix l none

/-- Appending the strong suffix neither adds nor removes neutral
configuration terms: none occurs in the suffix and none can straddle
the junction. -/
theorem neutral_append_strong (l : List Char) :
    (neutralTerms.any (fun k => containsSub k (l ++ lowerStr strongSuffix))) =
      (neutralTerms.any (fun k => containsSub k l)) := by
  have fwd : neutralTerms.any
      (fun k => containsSub k (l ++ lowerStr strongSuffix)) = true →
      neutralTerms.any (fun k => containsSub k l) = true := by
    intro h
    obtain ⟨k, hk, hck⟩ := List.any_eq_true.mp h
    rcases containsSub_append_cases k l (lowerStr strongSuffix) hck with
      h1 | h1 | h1
    · exact List.any_eq_true.mpr ⟨k, hk, h1⟩
    · exfalso
      simp only [neutralTerms, List.map, List.mem_cons, List.not_mem_nil,
        or_false] at hk
      rcases hk with rfl | rfl | rfl | rfl <;> revert h1 <;> decide
    · exfalso
      simp only [neutralTerms, List.map, List.mem_cons, List.not_mem_nil,
        or_false] at hk
      rcases hk with rfl | rfl | rfl | rfl <;> revert h1 <;> decide
  cases hb : neutralTerms.any (fun k => containsSub k l) with
  | true => exact anyContains_mono neutralTerms l (lowerStr strongSuffix) hb
  | false =>
      cases hc : neutralTerms.any
          (fun k => containsSub k (l ++ lowerStr strongSuffix)) with
      | true => rw [fwd hc] at hb; cases hb
      | false => rfl

/-- At least the four supporting keywords carried by the strong suffix
survive the filter on the extended line. -/
theorem supporting_hits_ge_four (l : List Char) :
    4 ≤ (supportingKeywords.filter
        (fun k => containsSub k (l ++ lowerStr strongSuffix))).length := by
  have hw : containsSub "wait".data (l ++ lowerStr strongSuffix) = true :=
    containsSub_append_right _ l _ (by rw [lower_strongSuffix]; decide)
  have hh : containsSub "hours".data (l ++ lowerStr strongSuffix) = true :=
    containsSub_append_right _ l _ (by rw [lower_strongSuffix]; decide)
  have he : containsSub "exceeded".data (l ++ lowerStr strongSuffix) = true :=
    containsSub_append_right _ l _ (by rw [lower_strongSuffix]; decide)
  have hq : containsSub "quota".data (l ++ lowerStr strongSuffix) = true :=
    containsSub_append_right _ l _ (by rw [lower_strongSuffix]; decide)
  cases hlim : containsSub "limit".data (l ++ lowerStr strongSuffix) <;>
    simp [supportingKeywords, List.filter_cons, hw, hh, he, hq, hlim]

/-- Monotonicity of the signal-folded confidence: against a side whose
strong-keyword, time-reference and reinforcement signals all fire,
whose supporting hits reach the cap, whose error signal dominates and
whose neutral penalty agrees, the score never decreases. -/
theorem confidenceFromSignals_mono (plen : Rat) (hits1 hits2 : Nat)
    (s1 s2 h1b h2b n1 n2 e1 e2 g r1 r2 l1 l2 neu1 neu2 : Bool)
    (hs2 : s2 = true) (hhits : 4 ≤ hits2) (hh2 : h2b = true)
    (he : e1 = true → e2 = true) (hr2 : r2 = true)
    (hl : l1 = true → l2 = true) (hneu : neu1 = neu2) :
    confidenceFromSignals plen s1 hits1 h1b n1 e1 g r1 l1 neu1 ≤
      confidenceFromSignals plen s2 hits2 h2b n2 e2 g r2 l2 neu2 := by
  subst hs2
  subst hh2
  subst hr2
  subst hneu
  have b1 : (if s1 = true then (2 : Rat)/5 else 0) ≤ 2/5 := by
    cases s1 <;> norm_num
  have b2 : min ((1 : Rat)/5) ((hits1 : Rat) * (1/20)) ≤ 1/5 :=
    min_le_left _ _
  have b2e : min ((1 : Rat)/5) ((hits2 : Rat) * (1/20)) = 1/5 := by
    refine min_eq_left ?_
    have : (4 : Rat) ≤ (hits2 : Rat) := by exact_mod_cast hhits
    linarith
  have b3 : (if h1b = true then (1 : Rat)/5 else
      if n1 = true then (1 : Rat)/10 else 0) ≤ 1/5 := by
    cases h1b <;> cases n1 <;> norm_num
  have b4 : (if e1 = true then (1 : Rat)/10 else 0) ≤
      (if e2 = true then (1 : Rat)/10 else 0) := by
    cases e1 with
    | false => cases e2 <;> norm_num
    | true => rw [he rfl]
  unfold confidenceFromSignals
  have hc5 : 3/10 + plen + (if s1 = true then (2 : Rat)/5 else 0) +
      min ((1 : Rat)/5) ((hits1 : Rat) * (1/20)) +
      (if h1b = true then (1 : Rat)/5 else
        if n1 = true then (1 : Rat)/10 else 0) +
      (if e1 = true then (1 : Rat)/10 else 0) ≤
      3/10 + plen + (2 : Rat)/5 +
      min ((1 : Rat)/5) ((hits2 : Rat) * (1/20)) + (1 : Rat)/5 +
      (if e2 = true then (1 : Rat)/10 else 0) := by
    rw [b2e]
    linarith
  have hc6 : (if g = true then
        3/10 + plen + (if s1 = true then (2 : Rat)/5 else 0) +
          min ((1 : Rat)/5) ((hits1 : Rat) * (1/20)) +
          (if h1b = true then (1 : Rat)/5 else
            if n1 = true then (1 : Rat)/10 else 0) +
          (if e1 = true then (1 : Rat)/10 else 0) - 1/5 +
          (if r1 = true then (3 : Rat)/10 else 0)
      else max (3/10 + plen + (if s1 = true then (2 : Rat)/5 else 0) +
          min ((1 : Rat)/5) ((hits1 : Rat) * (1/20)) +
          (if h1b = true then (1 : Rat)/5 else
            if n1 = true then (1 : Rat)/10 else 0) +
          (if e1 = true then (1 : Rat)/10 else 0)) (3/5)) ≤
      (if g = true then
        3/10 + plen + (2 : Rat)/5 +
          min ((1 : Rat)/5) ((hits2 : Rat) * (1/20)) + (1 : Rat)/5 +
          (if e2 = true then (1 : Rat)/10 else 0) - 1/5 + (3 : Rat)/10
      else max (3/10 + plen + (2 : Rat)/5 +
          min ((1 : Rat)/5) ((hits2 : Rat) * (1/20)) + (1 : Rat)/5 +
          (if e2 = true then (1 : Rat)/10 else 0)) (3/5)) := by
    cases g with
    | true =>
        simp only [if_true]
        have br : (if r1 = true then (3 : Rat)/10 else 0) ≤ 3/10 := by
          cases r1 <;> norm_num
        linarith
    | false =>
        simp only [Bool.false_eq_true, if_false]
        exact max_le_max hc5 (le_refl _)
  refine min_le_min (le_refl 1) (max_le_max (le_refl 0) ?_)
  refine sub_le_sub ?_ (le_refl _)
  cases hl1 : l1 with
  | true =>
      rw [hl hl1]
      simp only [Bool.true_and]
      cases r1 with
      | true => simpa using max_le_max hc6 (le_refl ((3 : Rat)/5))
      | false =>
          simp only [Bool.false_eq_true, if_false]
          exact le_trans hc6 (le_max_left _ _)
  | false =>
      simp only [Bool.false_and, Bool.false_eq_true, if_false]
      cases hl2 : l2 with
      | true =>
          simp only [Bool.true_and, if_true]
          exact le_trans hc6 (le_max_left _ _)
      | false =>
          simp only [Bool.false_and, Bool.false_eq_true, if_false]
          exact hc6

/-- C7: for every line, every pattern and every matched text, appending
the strong-signal suffix "quota exceeded, wait 5 hours" to the line
never decreases the confidence score computed for the match. -/
theorem confidence_monotone_strong_suffix
    (pattern matched_text line : List Char) (idx : Nat) :
    calculate_confidence pattern matched_text line idx ≤
      calculate_confidence pattern matched_text (line ++ strongSuffix) idx := by
  have hstr : strongKeywords.any (fun k =>
      containsSub k (lowerStr line ++ lowerStr strongSuffix)) = true := by
    refine List.any_eq_true.mpr ⟨"quota exceeded".data, by decide, ?_⟩
    exact containsSub_append_right _ _ _ (by rw [lower_strongSuffix]; decide)
  have hrei : reinforceWords.any (fun k =>
      containsSub k (lowerStr line ++ lowerStr strongSuffix)) = true := by
    refine List.any_eq_true.mpr ⟨"exceeded".data, by decide, ?_⟩
    exact containsSub_append_right _ _ _ (by rw [lower_strongSuffix]; decide)
  dsimp only [calculate_confidence]
  rw [lowerStr_append]
  exact confidenceFromSignals_mono _ _ _ _ _ _ _ _ _ _ _ _ _ _ _ _ _ _
    hstr (supporting_hits_ge_four (lowerStr line))
    (hasHoursRef_append_strong (lowerStr line))
    (fun h => anyContains_mono errorIndicators (lowerStr line)
      (lowerStr strongSuffix) h)
    hrei
    (fun h => containsSub_append_left "limit".data (lowerStr line)
      (lowerStr strongSuffix) h)
    (neutral_append_strong (lowerStr line)).symm

/-- Dropping a satisfied run twice is the same as dropping it once. -/
theorem dropWhile_idem (p : Char → Bool) (l : List Char) :
    (l.dropWhile p).dropWhile p = l.dropWhile p := by
  induction l with
  | nil => rfl
  | cons a t ih =>
      by_cases h : p a
      · simp [List.dropWhile_cons, h, ih]
      · simp [List.dropWhile_cons, h]

/-- A prefix of a list stable under dropWhile is itself stable. -/
theorem dropWhile_eq_self_of_prefix (p : Char → Bool) (A y : List Char)
    (hA : A.dropWhile p = A) (hy : y <+: A) : y.dropWhile p = y := by
  cases y with
  | nil => rfl
  | cons c t =>
      obtain ⟨rest, hrest⟩ := hy
      have hc : p c = false := by
        by_contra hc
        have hc' : p c = true := by
          cases hpc : p c with
          | true => rfl
          | false => exact absurd hpc hc
        rw [← hrest, List.cons_append, List.dropWhile_cons, if_pos hc'] at hA
        have hsuf : (t ++ rest).dropWhile p <:+ t ++ rest :=
          List.dropWhile_suffix p
        have hlen := hsuf.length_le
        rw [hA] at hlen
        simp at hlen
      rw [List.dropWhile_cons, if_neg (by simp [hc])]

/-- The stripped list is stable under a further front strip. -/
theorem dropWhile_stripCh (l : List Char) :
    (stripCh l).dropWhile isSpaceCh = stripCh l := by
  have hpre : stripCh l <+: l.dropWhile isSpaceCh := by
    unfold stripCh
    simpa using List.reverse_prefix.mpr
      (List.dropWhile_suffix (l := (l.dropWhile isSpaceCh).reverse) isSpaceCh)
  exact dropWhile_eq_self_of_prefix isSpaceCh (l.dropWhile isSpaceCh)
    (stripCh l) (dropWhile_idem isSpaceCh l) hpre

/-- The reverse of the stripped list is stable under a front strip. -/
theorem dropWhile_stripCh_reverse (l : List Char) :
    (stripCh l).reverse.dropWhile isSpaceCh = (stripCh l).reverse := by
  unfold stripCh
  rw [List.reverse_reverse]
  exact dropWhile_idem isSpaceCh (l.dropWhile isSpaceCh).reverse

/-- Stripping is idempotent. -/
theorem stripCh_idem (l : List Char) : stripCh (stripCh l) = stripCh l := by
  conv_lhs => rw [stripCh]
  rw [dropWhile_stripCh, dropWhile_stripCh_reverse, List.reverse_reverse]

/-- Lowercasing commutes with the front strip. -/
theorem lowerStr_dropWhile (l : List Char) :
    (lowerStr l).dropWhile isSpaceCh = lowerStr (l.dropWhile isSpaceCh) := by
  unfold lowerStr
  rw [List.dropWhile_map,
    show (isSpaceCh ∘ toLowerCh) = isSpaceCh from funext isSpaceCh_toLowerCh]

/-- Lowercasing commutes with reversal. -/
theorem lowerStr_reverse (l : List Char) :
    (lowerStr l).reverse = lowerStr l.reverse := by
  unfold lowerStr
  exact (List.map_reverse _ _).symm

/-- Lowercasing commutes with stripping. -/
theorem stripCh_lowerStr (l : List Char) :
    stripCh (lowerStr l) = lowerStr (stripCh l) := by
  unfold stripCh
  rw [lowerStr_dropWhile, lowerStr_reverse, lowerStr_dropWhile, lowerStr_reverse]

/-- Stripping a line first does not change whether it is recognized as
a system message. -/
theorem is_system_message_strip (line : List Char) :
    is_system_message (stripCh line) = is_system_message line := by
  unfold is_system_message
  rw [stripCh_lowerStr, stripCh_idem, stripCh_lowerStr]

/-- Splitting a text without newline separators keeps it whole. -/
theorem splitLines_no_newline (l : List Char) (h : ('\n') ∉ l) :
    splitLines l = [l] := by
  induction l with
  | nil => rfl
  | cons c t ih =>
      have hc : ¬(c = '\n') := fun hh => h (by simp [hh])
      have ht : ('\n') ∉ t := fun hh => h (List.mem_cons_of_mem _ hh)
      unfold splitLines
      rw [ih ht]
      simp [hc]

/-- C6: an input line identified as a system/log message is rejected
before any pattern matching, so detect returns no detection for it,
whatever patterns and threshold the detector holds, even when the line
contains text matching a configured pattern. -/
theorem system_message_line_suppressed
    (pd : PatternDetector) (line : List Char) (now : Rat) (fresh_id : String)
    (hsys : is_system_message line = true)
    (hnl : ('\n') ∉ line) :
    (pd.detect_limit_message line now fresh_id).2 = none := by
  have hcheck : ∀ (pdx : PatternDetector) (n : Nat),
      pdx.check_line_for_patterns (stripCh line) n = DetectionResult.noMatch := by
    intro pdx n
    unfold PatternDetector.check_line_for_patterns
    by_cases hempty : stripCh (stripCh line) = []
    · rw [if_pos hempty]
    · rw [if_neg hempty,
        if_pos (by rw [is_system_message_strip]; exact hsys)]
  have hcont : line.contains '\n' = false := by
    cases hcase : line.contains '\n' with
    | false => rfl
    | true => exact absurd (List.mem_of_elem_eq_true hcase) hnl
  have hblock : ∀ (pdx : PatternDetector) (hint : Nat),
      pdx.check_text_block_for_patterns line hint = none := by
    intro pdx hint
    unfold PatternDetector.check_text_block_for_patterns
    by_cases hempty : stripCh line = []
    · rw [if_pos hempty]
    · rw [if_neg hempty, if_pos (by rw [hcont, hsys]; rfl)]
  unfold PatternDetector.detect_limit_message
  rw [splitLines_no_newline line hnl]
  simp only [pushLines, PatternDetector.push_line]
  simp only [List.find?, hcheck, DetectionResult.noMatch]
  simp [hblock]

/-- C6 witness: the bracketed debug line that contains the configured
phrase "limit exceeded" is still suppressed. -/
theorem system_message_line_suppressed_witness :
    (pdSample.detect_limit_message debugLine 100 "evt_w").2 = none :=
  system_message_line_suppressed pdSample debugLine 100 "evt_w"
    (by decide) (by decide)

/-- The dispatch loop stops exactly at the first failing task, leaving
the tail from that task on. -/
theorem dispatchFrom_eq_drop (env : ControllerEnv) :
    ∀ (tasks : List QueuedTask) (k : Nat) (hk : k < tasks.length),
      (∀ (i : Nat) (hi : i < tasks.length), i < k →
        (sendSequence (tasks.get ⟨i, hi⟩)).all env.send_ok = true) →
      (sendSequence (tasks.get ⟨k, hk⟩)).all env.send_ok = false →
      dispatchFrom env tasks = tasks.drop k := by
  intro tasks
  induction tasks with
  | nil => intro k hk; exact absurd hk (Nat.not_lt_zero k)
  | cons t rest ih =>
      intro k hk hok hfail
      cases k with
      | zero =>
          unfold dispatchFrom
          rw [if_neg (by simp only [List.get] at hfail; simp [hfail])]
          rfl
      | succ k2 =>
          have h0 : (sendSequence t).all env.send_ok = true :=
            hok 0 (Nat.succ_pos _) (Nat.succ_pos _)
          unfold dispatchFrom
          rw [if_pos h0]
          exact ih k2 (Nat.lt_of_succ_lt_succ hk)
            (fun i hi hik => hok (i + 1) (Nat.succ_lt_succ hi)
              (Nat.succ_lt_succ hik)) hfail

/-- C4: when dispatch of the queued tasks after a restart fails at
task k (first failure), the queue afterwards holds exactly the tasks
from k on in their original order, an error event is emitted, the
failed task is still queued, and none of the already dispatched tasks
remains. -/
theorem queue_requeue_on_failure (env : ControllerEnv)
    (ctrl : RestartController) (k : Nat) (hk : k < ctrl.task_queue.length)
    (hok : ∀ (i : Nat) (hi : i < ctrl.task_queue.length), i < k →
      (sendSequence (ctrl.task_queue.get ⟨i, hi⟩)).all env.send_ok = true)
    (hfail : (sendSequence (ctrl.task_queue.get ⟨k, hk⟩)).all env.send_ok =
      false) :
    (ctrl.execute_task_queue env).task_queue = ctrl.task_queue.drop k ∧
    "error_occurred" ∈ (ctrl.execute_task_queue env).emitted_events ∧
    ctrl.task_queue.get ⟨k, hk⟩ ∈ (ctrl.execute_task_queue env).task_queue ∧
    (ctrl.task_queue.Nodup → ∀ (i : Nat) (hi : i < ctrl.task_queue.length),
      i < k →
      ctrl.task_queue.get ⟨i, hi⟩ ∉ (ctrl.execute_task_queue env).task_queue) := by
  have hne : ctrl.task_queue ≠ [] := by
    intro h
    rw [h] at hk
    exact absurd hk (Nat.not_lt_zero k)
  have hdrop : dispatchFrom env ctrl.task_queue = ctrl.task_queue.drop k :=
    dispatchFrom_eq_drop env ctrl.task_queue k hk hok hfail
  have hdropne : ctrl.task_queue.drop k ≠ [] := by
    intro h
    have := List.drop_eq_nil_iff_le.mp h
    omega
  have hget : ctrl.task_queue.get ⟨k, hk⟩ ∈ ctrl.task_queue.drop k := by
    have hcd := List.getElem_cons_drop ctrl.task_queue k hk
    rw [← hcd]
    exact List.mem_cons_self _ _
  unfold RestartController.execute_task_queue
  rw [if_neg hne, hdrop, if_neg hdropne]
  refine ⟨rfl, by simp, hget, ?_⟩
  intro hnd i hi hik
  have hsplit : ctrl.task_queue.take k ++ ctrl.task_queue.drop k =
      ctrl.task_queue := List.take_append_drop k ctrl.task_queue
  have hnd2 : (ctrl.task_queue.take k ++ ctrl.task_queue.drop k).Nodup := by
    rw [hsplit]; exact hnd
  have hdisj := (List.nodup_append.mp hnd2).2.2
  have htake : ctrl.task_queue.get ⟨i, hi⟩ ∈ ctrl.task_queue.take k := by
    have hgt : (ctrl.task_queue.take k).get
        ⟨i, by rw [List.length_take]; omega⟩ = ctrl.task_queue.get ⟨i, hi⟩ := by
      simp [List.get_take]
    rw [← hgt]
    exact List.get_mem _ _ _
  exact fun hmem => hdisj htake hmem

/-- C4 witness: dispatching a queue of three tasks where the second
send fails leaves exactly the second and third task in order, the
first is gone, and the error event fired. -/
theorem queue_requeue_on_failure_witness :
    (ctrlQueueSample.execute_task_queue envSendFail).task_queue =
      ctrlQueueSample.task_queue.drop 1 ∧
    "error_occurred" ∈
      (ctrlQueueSample.execute_task_queue envSendFail).emitted_events ∧
    taskB ∈ (ctrlQueueSample.execute_task_queue envSendFail).task_queue ∧
    taskA ∉ (ctrlQueueSample.execute_task_queue envSendFail).task_queue := by
  obtain ⟨h1, h2, h3, h4⟩ :=
    queue_requeue_on_failure envSendFail ctrlQueueSample 1 (by decide)
      (by
        intro i hi h1
        have h0 : i = 0 := by
          simp [ctrlQueueSample, initialController] at hi
          omega
        subst h0
        exact (by decide :
          (sendSequence (ctrlQueueSample.task_queue.get ⟨0, by decide⟩)).all
            envSendFail.send_ok = true))
      (by decide)
  exact ⟨h1, h2, h3, h4 (by decide) 0 (by decide) (by decide)⟩


/-- Updating the stored object under a key keeps the key set. -/
theorem updateAssoc_keys {α : Type} (l : List (String × α)) (k : String)
    (v : α) : (updateAssoc l k v).map Prod.fst = l.map Prod.fst := by
  induction l with
  | nil => rfl
  | cons q t ih =>
      obtain ⟨k2, x⟩ := q
      simp only [updateAssoc, List.map_cons] at ih ⊢
      by_cases h : k2 = k
      · rw [if_pos h]
        simp [ih, h]
      · rw [if_neg h]
        simp [ih]

/-- Looking up the updated key returns the new object when the key was
present. -/
theorem lookup_updateAssoc {α : Type} (l : List (String × α)) (k : String)
    (v w : α) (h : List.lookup k l = some w) :
    List.lookup k (updateAssoc l k v) = some v := by
  induction l with
  | nil => simp [List.lookup] at h
  | cons q t ih =>
      obtain ⟨k2, x⟩ := q
      simp only [updateAssoc, List.map_cons] at ih ⊢
      by_cases hk : k2 = k
      · rw [if_pos hk]
        simp [List.lookup]
      · rw [if_neg hk]
        have hne : (k == k2) = false := by
          simp only [beq_eq_false_iff_ne, ne_eq]
          exact fun hh => hk hh.symm
        simp only [List.lookup, hne] at h ⊢
        exact ih h

/-- Looking up a key under a different updated key is unchanged. -/
theorem lookup_updateAssoc_ne {α : Type} (l : List (String × α))
    (k k2 : String) (v : α) (h : k2 ≠ k) :
    List.lookup k2 (updateAssoc l k v) = List.lookup k2 l := by
  induction l with
  | nil => rfl
  | cons q t ih =>
      obtain ⟨k3, x⟩ := q
      simp only [updateAssoc, List.map_cons] at ih ⊢
      by_cases hk : k3 = k
      · rw [if_pos hk]
        have hne : (k2 == k) = false := by
          simp only [beq_eq_false_iff_ne, ne_eq]; exact h
        have hne3 : (k2 == k3) = false := by
          simp only [beq_eq_false_iff_ne, ne_eq]
          exact fun hh => h (hh.trans hk)
        simp only [List.lookup, hne, hne3]
        exact ih
      · rw [if_neg hk]
        by_cases hk2 : k2 = k3
        · simp only [List.lookup, hk2, beq_self_eq_true]
        · have hne3 : (k2 == k3) = false := by
            simp only [beq_eq_false_iff_ne, ne_eq]; exact hk2
          simp only [List.lookup, hne3]
          exact ih

/-- A successful lookup puts the key among the keys. -/
theorem lookup_mem_keys {α : Type} (l : List (String × α)) (k : String)
    (v : α) (h : List.lookup k l = some v) : k ∈ l.map Prod.fst := by
  induction l with
  | nil => simp [List.lookup] at h
  | cons q t ih =>
      obtain ⟨k2, x⟩ := q
      by_cases hk : k = k2
      · simp [hk]
      · have hne : (k == k2) = false := by
          simp only [beq_eq_false_iff_ne, ne_eq]; exact hk
        simp only [List.lookup, hne] at h
        simp [ih h]

/-- Binding a successful Except value just applies the continuation. -/
theorem except_bind_ok {α β : Type} (a : α) (f : α → Except String β) :
    (Except.ok a >>= f) = f a := rfl

/-- The task-queue dispatch leaves the waiting periods unchanged. -/
theorem execute_task_queue_waiting (env : ControllerEnv)
    (ctrl : RestartController) :
    (ctrl.execute_task_queue env).waiting_periods = ctrl.waiting_periods := by
  simp only [RestartController.execute_task_queue]
  by_cases h1 : ctrl.task_queue = []
  · rw [if_pos h1]
  · rw [if_neg h1]
    by_cases h2 : dispatchFrom env ctrl.task_queue = []
    · rw [if_pos h2]
    · rw [if_neg h2]

/-- The task-queue dispatch leaves the timing manager unchanged. -/
theorem execute_task_queue_timing (env : ControllerEnv)
    (ctrl : RestartController) :
    (ctrl.execute_task_queue env).timing_manager = ctrl.timing_manager := by
  simp only [RestartController.execute_task_queue]
  by_cases h1 : ctrl.task_queue = []
  · rw [if_pos h1]
  · rw [if_neg h1]
    by_cases h2 : dispatchFrom env ctrl.task_queue = []
    · rw [if_pos h2]
    · rw [if_neg h2]

/-- The task-queue dispatch leaves the restart counter unchanged. -/
theorem execute_task_queue_restart (env : ControllerEnv)
    (ctrl : RestartController) :
    (ctrl.execute_task_queue env).restart_count = ctrl.restart_count := by
  simp only [RestartController.execute_task_queue]
  by_cases h1 : ctrl.task_queue = []
  · rw [if_pos h1]
  · rw [if_neg h1]
    by_cases h2 : dispatchFrom env ctrl.task_queue = []
    · rw [if_pos h2]
    · rw [if_neg h2]

/-- The task-queue dispatch leaves the session dictionary unchanged. -/
theorem execute_task_queue_sessions (env : ControllerEnv)
    (ctrl : RestartController) :
    (ctrl.execute_task_queue env).active_sessions = ctrl.active_sessions := by
  simp only [RestartController.execute_task_queue]
  by_cases h1 : ctrl.task_queue = []
  · rw [if_pos h1]
  · rw [if_neg h1]
    by_cases h2 : dispatchFrom env ctrl.task_queue = []
    · rw [if_pos h2]
    · rw [if_neg h2]

/-- The task-queue dispatch leaves the controller state tag unchanged. -/
theorem execute_task_queue_state (env : ControllerEnv)
    (ctrl : RestartController) :
    (ctrl.execute_task_queue env).state = ctrl.state := by
  simp only [RestartController.execute_task_queue]
  by_cases h1 : ctrl.task_queue = []
  · rw [if_pos h1]
  · rw [if_neg h1]
    by_cases h2 : dispatchFrom env ctrl.task_queue = []
    · rw [if_pos h2]
    · rw [if_neg h2]

/-- Registering a completion callback never changes the active
periods. -/
theorem set_completion_callback_active (tm : TimingManager) (pid : String) :
    (tm.set_completion_callback pid).1.active_periods = tm.active_periods := by
  unfold TimingManager.set_completion_callback
  split
  · split <;> rfl
  · rfl

/-- The period built by add_waiting_period carries its fresh id. -/
theorem startedPeriod_period_id (tm : TimingManager) (fresh : String)
    (dh : Rat) (sid eid : Option String) (now : Rat) :
    (startedPeriod tm fresh dh sid eid now).period_id = fresh := rfl

/-- The period built by add_waiting_period carries its session id. -/
theorem startedPeriod_session_id (tm : TimingManager) (fresh : String)
    (dh : Rat) (sid eid : Option String) (now : Rat) :
    (startedPeriod tm fresh dh sid eid now).session_id = sid := rfl

/-- The period built by add_waiting_period with auto_start is active. -/
theorem startedPeriod_status (tm : TimingManager) (fresh : String)
    (dh : Rat) (sid eid : Option String) (now : Rat) :
    (startedPeriod tm fresh dh sid eid now).status = PeriodStatus.active := rfl

/-- Adding a waiting period under an explicit id with a valid duration
and check frequency succeeds, appends the started period under that id
and returns it. -/
theorem add_waiting_period_ok (tm : TimingManager) (fresh : String)
    (dh : Rat) (sid eid : Option String) (now : Rat)
    (hd0 : 0 < dh) (hd24 : dh ≤ 24)
    (hci1 : 1 ≤ tm.check_frequency) (hci2 : tm.check_frequency ≤ 3600) :
    tm.add_waiting_period (some fresh) (some dh) sid eid true now = Except.ok
      ({ tm with active_periods := tm.active_periods ++
          [(fresh, startedPeriod tm fresh dh sid eid now)] },
        startedPeriod tm fresh dh sid eid now) := by
  have hv1 : WaitingPeriod.validate_duration dh = Except.ok dh := by
    unfold WaitingPeriod.validate_duration
    rw [if_neg (not_le.mpr hd0), if_neg (not_lt.mpr hd24)]
  have hv2 : WaitingPeriod.validate_check_interval tm.check_frequency =
      Except.ok tm.check_frequency := by
    unfold WaitingPeriod.validate_check_interval
    rw [if_pos ⟨hci1, hci2⟩]
  simp only [TimingManager.add_waiting_period, Option.getD_some, hv1, hv2,
    except_bind_ok]
  rfl

/-- Calling add_waiting_period without a period id — as the detection
path always does — raises the pydantic validation error: no period is
created. -/
theorem add_waiting_period_none (tm : TimingManager)
    (dho : Option Rat) (sido eido : Option String) (auto_start : Bool)
    (now : Rat) :
    tm.add_waiting_period none dho sido eido auto_start now =
      Except.error periodIdValidationError := rfl

/-- Binding a failed Except value keeps the failure. -/
theorem except_bind_error {α β : Type} (e : String)
    (f : α → Except String β) :
    ((Except.error e : Except String α) >>= f) = Except.error e := rfl

/-- Effects of a successful restart: the waiting periods and the
timing manager are untouched, the restart counter advances, the
session comes back active and the completion event fires. -/
theorem initiate_restart_effects (env : ControllerEnv)
    (ctrl : RestartController) (sid cfg : String) (now : Rat)
    (session : MonitoringSession) (pid : Int)
    (hs : List.lookup sid ctrl.active_sessions = some session)
    (hpid : env.launch_pid = some pid) :
    (ctrl.initiate_restart env sid cfg now).waiting_periods =
      ctrl.waiting_periods ∧
    (ctrl.initiate_restart env sid cfg now).timing_manager =
      ctrl.timing_manager ∧
    (ctrl.initiate_restart env sid cfg now).restart_count =
      ctrl.restart_count + 1 ∧
    (∃ s3, List.lookup sid
        (ctrl.initiate_restart env sid cfg now).active_sessions = some s3 ∧
      s3.status = SessionStatus.active) ∧
    "restart_completed" ∈
      (ctrl.initiate_restart env sid cfg now).emitted_events := by
  simp only [RestartController.initiate_restart, hs, hpid]
  refine ⟨?_, ?_, ?_, ?_, ?_⟩
  · rw [execute_task_queue_waiting]
  · rw [execute_task_queue_timing]
  · rw [execute_task_queue_restart]
  · rw [execute_task_queue_sessions]
    refine ⟨_, lookup_updateAssoc _ _ _ _ hs, ?_⟩
    by_cases hw : session.status = SessionStatus.waiting <;> simp [hw]
  · simp

/-- C2: a process crash triggers an immediate restart of the crashed
session — the restart counter advances, the session comes back active
and no waiting period appears anywhere — whereas a detected limit on a
still-running active session, contrary to the claim, creates no
waiting period either: the handler calls add_waiting_period with its
period_id defaulted to None, the pydantic constructor rejects it, and
the raised validation error propagates out of the handler, so the
session never enters waiting.  The completion machinery itself is
sound: completing a period bound to the session runs the restart path,
advances the counter, reactivates the session and removes the period —
but the detection path can never reach it. -/
theorem crash_restarts_limit_detection_raises
    (env : ControllerEnv) (ctrl : RestartController) (sid cfg : String)
    (now : Rat) (session : MonitoringSession) (pid : Int)
    (event : LimitDetectionEvent)
    (hs : List.lookup sid ctrl.active_sessions = some session)
    (hpid : env.launch_pid = some pid)
    (hact : session.status = SessionStatus.active)
    (hbusy : env.task_busy = false)
    (hcs : event.cooldown_start = none) :
    ((ctrl.handle_process_crash env sid cfg now).waiting_periods =
        ctrl.waiting_periods ∧
      (ctrl.handle_process_crash env sid cfg now).timing_manager =
        ctrl.timing_manager ∧
      (ctrl.handle_process_crash env sid cfg now).restart_count =
        ctrl.restart_count + 1 ∧
      (∃ s2, List.lookup sid
          (ctrl.handle_process_crash env sid cfg now).active_sessions =
            some s2 ∧ s2.status = SessionStatus.active) ∧
      "restart_completed" ∈
        (ctrl.handle_process_crash env sid cfg now).emitted_events) ∧
    ctrl.handle_limit_detection env sid event now =
      Except.error periodIdValidationError ∧
    (∀ wp : WaitingPeriod, wp.session_id = some sid →
      (ctrl.handle_waiting_completion env wp cfg now).restart_count =
        ctrl.restart_count + 1 ∧
      (∃ s2, List.lookup sid
          (ctrl.handle_waiting_completion env wp cfg now).active_sessions =
            some s2 ∧ s2.status = SessionStatus.active) ∧
      (ctrl.handle_waiting_completion env wp cfg now).waiting_periods =
        ctrl.waiting_periods.filter (fun q => q.1 ≠ wp.period_id)) := by
  refine ⟨?_, ?_, ?_⟩
  · simp only [RestartController.handle_process_crash, hs]
    obtain ⟨e1, e2, e3, e4, e5⟩ := initiate_restart_effects env
      { ctrl with active_sessions := (updateAssoc ctrl.active_sessions sid
          (session.mark_crashed now)) } sid cfg now (session.mark_crashed now)
      pid (lookup_updateAssoc _ _ _ _ hs) hpid
    exact ⟨by rw [e1], by rw [e2], by rw [e3], e4, e5⟩
  · have hnw : ¬ session.status = SessionStatus.waiting := by simp [hact]
    have hbz : ¬ env.task_busy = true := by simp [hbusy]
    have e1 : event.start_cooldown now = Except.ok
        { event with
          cooldown_start := some now
          cooldown_end := some (now + event.cooldown_duration_hours * 3600) } := by
      unfold LimitDetectionEvent.start_cooldown
      rw [hcs]
      rfl
    simp only [RestartController.handle_limit_detection, hs]
    rw [if_neg hnw, if_neg hbz]
    rw [e1]
    simp only [except_bind_ok]
    rw [add_waiting_period_none, except_bind_error]
  · intro wp hwsid
    have hmem : sid ∈ ctrl.active_sessions.map Prod.fst :=
      lookup_mem_keys _ _ _ hs
    have hcont : ((ctrl.active_sessions.map Prod.fst).contains sid) = true := by
      simpa using hmem
    simp only [RestartController.handle_waiting_completion, hwsid]
    rw [if_pos hcont]
    obtain ⟨e1, e2, e3, e4, e5⟩ := initiate_restart_effects env
      { ctrl with last_waiting_period := some wp } sid cfg now session pid
      hs hpid
    exact ⟨by rw [e3], e4, by rw [e1]⟩

/-- C2 witness: on the sample controller holding one active session, a
crash bumps the restart counter to 1 with no waiting period anywhere,
while a limit detection raises the period_id validation error and so
creates nothing; completing a period bound to the session does run the
restart. -/
theorem crash_restarts_limit_detection_raises_witness :
    (ctrlActiveSample.handle_process_crash envOk "sess_a" "cfg_2"
      100).restart_count = 1 ∧
    (ctrlActiveSample.handle_process_crash envOk "sess_a" "cfg_2"
      100).waiting_periods = [] ∧
    ctrlActiveSample.handle_limit_detection envOk "sess_a" evtSample 100 =
      Except.error periodIdValidationError ∧
    (ctrlActiveSample.handle_waiting_completion envOk
      (startedPeriod initialTiming "wp_0" 5 (some "sess_a") none 0)
      "cfg_2" 100).restart_count = 1 := by
  obtain ⟨pa, pb, pc⟩ := crash_restarts_limit_detection_raises envOk
    ctrlActiveSample "sess_a" "cfg_2" 100 sessSample 777 evtSample
    rfl rfl rfl rfl rfl
  refine ⟨?_, ?_, pb, ?_⟩
  · rw [pa.2.2.1]
    rfl
  · rw [pa.1]
    rfl
  · rw [(pc (startedPeriod initialTiming "wp_0" 5 (some "sess_a") none 0)
      rfl).1]
    rfl

/-- Registering a completion callback keeps the check frequency. -/
theorem set_completion_callback_check_frequency (tm : TimingManager)
    (pid : String) :
    (tm.set_completion_callback pid).1.check_frequency = tm.check_frequency := by
  unfold TimingManager.set_completion_callback
  split
  · split <;> rfl
  · rfl

/-- A successful lookup exhibits a member of the association list. -/
theorem lookup_mem {α : Type} (l : List (String × α)) (k : String)
    (v : α) (h : List.lookup k l = some v) : (k, v) ∈ l := by
  induction l with
  | nil => simp [List.lookup] at h
  | cons q t ih =>
      obtain ⟨k2, x⟩ := q
      by_cases hk : k = k2
      · subst hk
        simp only [List.lookup, beq_self_eq_true] at h
        cases h
        exact List.mem_cons_self _ _
      · have hne : (k == k2) = false := by
          simp only [beq_eq_false_iff_ne, ne_eq]; exact hk
        simp only [List.lookup, hne] at h
        exact List.mem_cons_of_mem _ (ih h)

/-- A key among the keys yields a successful lookup. -/
theorem mem_keys_lookup {α : Type} (l : List (String × α)) (k : String)
    (h : k ∈ l.map Prod.fst) : ∃ v, List.lookup k l = some v := by
  induction l with
  | nil => simp at h
  | cons q t ih =>
      obtain ⟨k2, x⟩ := q
      by_cases hk : k = k2
      · subst hk
        exact ⟨x, by simp [List.lookup]⟩
      · have hne : (k == k2) = false := by
          simp only [beq_eq_false_iff_ne, ne_eq]; exact hk
        simp only [List.map_cons, List.mem_cons] at h
        rcases h with h | h
        · exact absurd h.symm (fun hh => hk hh.symm)
        · obtain ⟨v, hv⟩ := ih h
          exact ⟨v, by simp only [List.lookup, hne]; exact hv⟩

/-- Members of an updated association list: the refreshed entry or an
old entry under a different key. -/
theorem mem_updateAssoc {α : Type} (l : List (String × α)) (k : String)
    (v : α) (q : String × α) (h : q ∈ updateAssoc l k v) :
    q = (k, v) ∨ (q ∈ l ∧ q.1 ≠ k) := by
  unfold updateAssoc at h
  obtain ⟨p, hp, hfp⟩ := List.mem_map.mp h
  by_cases hk : p.1 = k
  · rw [if_pos hk] at hfp
    exact Or.inl hfp.symm
  · rw [if_neg hk] at hfp
    subst hfp
    exact Or.inr ⟨hp, hk⟩

/-- A successful Except bind splits into two successes. -/
theorem except_ok_iff {α β : Type} (x : Except String α)
    (f : α → Except String β) (b : β) :
    (x >>= f) = Except.ok b ↔ ∃ a, x = Except.ok a ∧ f a = Except.ok b := by
  cases x with
  | ok a => simp [except_bind_ok]
  | error e =>
      constructor
      · intro h
        exact absurd h (by simp [Bind.bind, Except.bind])
      · rintro ⟨a, ha, _⟩
        cases ha

/-- A list of length at most one has at most one member. -/
theorem mem_of_length_le_one {α : Type} (l : List α) (h : l.length ≤ 1)
    (a b : α) (ha : a ∈ l) (hb : b ∈ l) : a = b := by
  match l, ha with
  | [x], ha =>
      simp only [List.mem_singleton] at ha hb
      rw [ha, hb]
  | x :: y :: t, _ => simp [List.length_cons] at h

/-- Two controllers with the same waiting periods count alike. -/
theorem periodsFor_congr (c2 c1 : RestartController) (s : String)
    (h : c2.waiting_periods = c1.waiting_periods) :
    periodsFor c2 s = periodsFor c1 s := by
  unfold periodsFor
  rw [h]

/-- A limit detection on a session already waiting only bumps the
detection counter, appends the event and refreshes the last-period
pointer: the dictionaries of waiting periods and the timing manager
stay untouched. -/
theorem handle_limit_detection_waiting_ok (env : ControllerEnv)
    (ctrl : RestartController) (sid : String) (event : LimitDetectionEvent)
    (now : Rat) (session : MonitoringSession)
    (hs : List.lookup sid ctrl.active_sessions = some session)
    (hw : session.status = SessionStatus.waiting) :
    ctrl.handle_limit_detection env sid event now = Except.ok
      { ctrl with
        active_sessions := updateAssoc ctrl.active_sessions sid
          { session with detection_count := session.detection_count + 1 }
        detection_events := ctrl.detection_events ++ [event]
        last_waiting_period :=
          match session.waiting_period_id.bind
              (fun wpid => List.lookup wpid ctrl.waiting_periods) with
          | some wp => some wp
          | none => ctrl.last_waiting_period } := by
  simp only [RestartController.handle_limit_detection, hs]
  rw [if_pos hw]

/-- A limit detection on an active session with an idle task monitor
and a startable cooldown raises the period_id validation error: the
handler passes None for the period id and the pydantic constructor
rejects it, so no waiting period is created and the session never
enters the waiting state. -/
theorem handle_limit_detection_active_raises (env : ControllerEnv)
    (ctrl : RestartController) (sid : String) (event : LimitDetectionEvent)
    (now : Rat) (session : MonitoringSession)
    (hs : List.lookup sid ctrl.active_sessions = some session)
    (hact : session.status = SessionStatus.active)
    (hbusy : env.task_busy = false)
    (hcs : event.cooldown_start = none) :
    ctrl.handle_limit_detection env sid event now =
      Except.error periodIdValidationError := by
  have hnw : ¬ session.status = SessionStatus.waiting := by simp [hact]
  have hbz : ¬ env.task_busy = true := by simp [hbusy]
  have e1 : event.start_cooldown now = Except.ok
      { event with
        cooldown_start := some now
        cooldown_end := some (now + event.cooldown_duration_hours * 3600) } := by
    unfold LimitDetectionEvent.start_cooldown
    rw [hcs]
    rfl
  simp only [RestartController.handle_limit_detection, hs]
  rw [if_neg hnw, if_neg hbz]
  rw [e1]
  simp only [except_bind_ok]
  rw [add_waiting_period_none, except_bind_error]


/-- A successful start keeps the identifiers of the period. -/
theorem start_waiting_ok_proj (wp : WaitingPeriod) (now : Rat)
    (wp2 : WaitingPeriod) (h : wp.start_waiting now = Except.ok wp2) :
    wp2.period_id = wp.period_id ∧ wp2.session_id = wp.session_id := by
  unfold WaitingPeriod.start_waiting at h
  by_cases hp : wp.status ≠ PeriodStatus.pending
  · rw [if_pos hp] at h
    simp at h
  · rw [if_neg hp] at h
    simp only [Except.ok.injEq] at h
    subst h
    exact ⟨rfl, rfl⟩

/-- Entering the waiting period succeeds only from the active state
and yields the expected waiting session. -/
theorem enter_waiting_period_ok_proj (s : MonitoringSession) (wpid : String)
    (now : Rat) (s2 : MonitoringSession)
    (h : s.enter_waiting_period wpid now = Except.ok s2) :
    s.status = SessionStatus.active ∧ s2 =
      { s with
        status := SessionStatus.waiting
        waiting_period_id := some wpid
        detection_count := s.detection_count + 1
        last_activity := some now } := by
  unfold MonitoringSession.enter_waiting_period at h
  by_cases hp : s.status ≠ SessionStatus.active
  · rw [if_pos hp] at h
    simp at h
  · rw [if_neg hp] at h
    simp only [Except.ok.injEq] at h
    exact ⟨not_not.mp hp, h.symm⟩

/-- A freshly started session is appended under its id, comes up
active and carries its id; the waiting periods stay untouched. -/
theorem start_monitoring_ok_shape (ctrl : RestartController)
    (env : ControllerEnv) (cmd : String) (wd : Option String)
    (rcmds : List String) (sid cfg : String) (now : Rat)
    (ctrl2 : RestartController)
    (h : ctrl.start_monitoring env cmd wd rcmds sid cfg now =
      Except.ok ctrl2) :
    ∃ s2, ctrl2.active_sessions = ctrl.active_sessions ++ [(sid, s2)] ∧
      s2.session_id = sid ∧ s2.status = SessionStatus.active ∧
      ctrl2.waiting_periods = ctrl.waiting_periods := by
  unfold RestartController.start_monitoring at h
  rw [except_ok_iff] at h
  obtain ⟨c, hc, h⟩ := h
  rcases hpid : env.launch_pid with _ | pid
  · rw [hpid] at h
    simp [Bind.bind, Except.bind] at h
  · rw [hpid] at h
    simp only [except_bind_ok, MonitoringSession.start_monitoring] at h
    rw [if_neg (fun hh : SessionStatus.inactive ≠ SessionStatus.inactive =>
      hh rfl)] at h
    rw [except_bind_ok] at h
    simp only [Except.ok.injEq] at h
    subst h
    exact ⟨_, rfl, rfl, rfl, rfl⟩

/-- The restart path rebuilds the session in place: the dictionary is
the old one with the session updated to one carrying the same id, and
the waiting periods are untouched. -/
theorem initiate_restart_shape (env : ControllerEnv)
    (ctrl : RestartController) (sid cfg : String) (now : Rat)
    (session : MonitoringSession)
    (hs : List.lookup sid ctrl.active_sessions = some session) :
    ∃ s3, (ctrl.initiate_restart env sid cfg now).active_sessions =
        updateAssoc ctrl.active_sessions sid s3 ∧
      s3.session_id = session.session_id ∧
      (ctrl.initiate_restart env sid cfg now).waiting_periods =
        ctrl.waiting_periods := by
  rcases hpid : env.launch_pid with _ | pid
  · simp only [RestartController.initiate_restart, hs, hpid]
    exact ⟨session.record_error "Restart failed" now, rfl, rfl, trivial⟩
  · simp only [RestartController.initiate_restart, hs, hpid]
    refine ⟨restartedSession session pid
      (match session.restart_config with
        | some c => c.clone cfg
        | none => RestartCommandConfiguration.create_default
            session.claude_command cfg) now, ?_, ?_, ?_⟩
    · rw [execute_task_queue_sessions]
      rfl
    · unfold restartedSession
      by_cases hw : session.status = SessionStatus.waiting <;> simp [hw]
    · rw [execute_task_queue_waiting]

/-- Every successful outcome of a limit detection: the no-op, or the
duplicate count on a waiting session.  The waiting transition for an
active session is unreachable: the period_id validation error aborts
it. -/
theorem handle_limit_detection_outcomes (env : ControllerEnv)
    (ctrl : RestartController) (sid : String) (ev : LimitDetectionEvent)
    (now : Rat) (ctrl2 : RestartController)
    (heq : ctrl.handle_limit_detection env sid ev now =
      Except.ok ctrl2) :
    ctrl2 = ctrl ∨
    (∃ session, List.lookup sid ctrl.active_sessions = some session ∧
      session.status = SessionStatus.waiting ∧
      ctrl2.waiting_periods = ctrl.waiting_periods ∧
      ctrl2.active_sessions = updateAssoc ctrl.active_sessions sid
        { session with detection_count := session.detection_count + 1 }) := by
  rcases hlook : List.lookup sid ctrl.active_sessions with _ | session
  · simp only [RestartController.handle_limit_detection, hlook] at heq
    exact Or.inl (Except.ok.inj heq).symm
  · simp only [RestartController.handle_limit_detection, hlook] at heq
    by_cases hw : session.status = SessionStatus.waiting
    · rw [if_pos hw] at heq
      have h2 := (Except.ok.inj heq).symm
      subst h2
      exact Or.inr ⟨session, rfl, hw, rfl, rfl⟩
    · rw [if_neg hw] at heq
      by_cases hb : env.task_busy = true
      · rw [if_pos hb] at heq
        exact Or.inl (Except.ok.inj heq).symm
      · rw [if_neg hb] at heq
        rw [except_ok_iff] at heq
        obtain ⟨ev2, hev2, heq⟩ := heq
        simp only [add_waiting_period_none, except_bind_error] at heq
        exact absurd heq (by simp)


/-- Filtering twice counts no more than filtering once. -/
theorem length_filter_filter_le {α : Type} (l : List α) (p q : α → Bool) :
    ((l.filter p).filter q).length ≤ (l.filter q).length := by
  have h1 : List.Sublist (l.filter p) l := List.filter_sublist l
  exact (h1.filter q).length_le

/-- A key different from the removed one survives the key filter. -/
theorem mem_keys_filter_ne {α : Type} (l : List (String × α))
    (a k : String) (ha : a ∈ l.map Prod.fst) (hne : a ≠ k) :
    a ∈ (l.filter (fun q => q.1 ≠ k)).map Prod.fst := by
  obtain ⟨p, hp, hpa⟩ := List.mem_map.mp ha
  refine List.mem_map.mpr ⟨p, List.mem_filter.mpr ⟨hp, ?_⟩, hpa⟩
  simp only [decide_eq_true_eq, ne_eq]
  rw [hpa]
  exact hne

/-- The fresh controller satisfies the structural invariant. -/
theorem inv_initial : ControllerInv initialController := by
  unfold ControllerInv
  refine ⟨?_, ?_, ?_, ?_, ?_⟩ <;> simp [initialController]

/-- Stopping a session preserves the structural invariant. -/
theorem inv_stop (ctrl : RestartController) (sid : String) (now : Rat)
    (hinv : ControllerInv ctrl) :
    ControllerInv (ctrl.stop_single_session sid now).1 := by
  unfold ControllerInv at hinv ⊢
  obtain ⟨i1, i2, i3, i4, i5⟩ := hinv
  rcases hlk : List.lookup sid ctrl.active_sessions with _ | s
  · simp only [RestartController.stop_single_session, hlk]
    exact ⟨i1, i2, i3, i4, i5⟩
  · simp only [RestartController.stop_single_session, hlk]
    refine ⟨?_, ?_, ?_, ?_, ?_⟩
    · exact i1.sublist (List.Sublist.map _
        (List.filter_sublist ctrl.active_sessions))
    · exact i2.sublist (List.Sublist.map _
        (List.filter_sublist ctrl.waiting_periods))
    · intro q hq
      exact i3 q (List.mem_filter.mp hq).1
    · intro q hq
      obtain ⟨hq1, hq2⟩ := List.mem_filter.mp hq
      obtain ⟨sid2, h1, h2⟩ := i4 q hq1
      refine ⟨sid2, h1, mem_keys_filter_ne _ _ _ h2 ?_⟩
      intro hcontra
      rw [hcontra] at h1
      simp only [decide_eq_true_eq] at hq2
      exact hq2 h1
    · intro q hq
      obtain ⟨hq1, _⟩ := List.mem_filter.mp hq
      obtain ⟨j1, j2⟩ := i5 q hq1
      constructor
      · exact le_trans (length_filter_filter_le _ _ _) j1
      · intro hst
        have h0 := j2 hst
        unfold periodsFor at h0 ⊢
        dsimp only
        have hle := length_filter_filter_le ctrl.waiting_periods
          (fun q2 => decide ¬(q2.2.session_id = some sid))
          (fun q2 => decide (q2.2.session_id = some q.1))
        omega

/-- Starting a session under a fresh id preserves the structural
invariant. -/
theorem inv_start (ctrl ctrl2 : RestartController) (env : ControllerEnv)
    (cmd : String) (wd : Option String) (rcmds : List String)
    (sid cfg : String) (now : Rat)
    (hfresh : sid ∉ ctrl.active_sessions.map Prod.fst)
    (heq : ctrl.start_monitoring env cmd wd rcmds sid cfg now =
      Except.ok ctrl2)
    (hinv : ControllerInv ctrl) : ControllerInv ctrl2 := by
  obtain ⟨s2, hact, hsid, hst, hwp⟩ :=
    start_monitoring_ok_shape _ _ _ _ _ _ _ _ _ heq
  unfold ControllerInv at hinv ⊢
  obtain ⟨i1, i2, i3, i4, i5⟩ := hinv
  have hpf : ∀ x, periodsFor ctrl2 x = periodsFor ctrl x := fun x =>
    periodsFor_congr _ _ _ hwp
  have h0 : periodsFor ctrl sid = 0 := by
    unfold periodsFor
    rw [List.length_eq_zero, List.filter_eq_nil]
    intro q hq
    simp only [decide_eq_true_eq]
    intro hqs
    obtain ⟨sid2, h1, h2⟩ := i4 q hq
    rw [h1] at hqs
    cases Option.some.inj hqs
    exact hfresh h2
  refine ⟨?_, ?_, ?_, ?_, ?_⟩
  · rw [hact]
    simp only [List.map_append, List.map_cons, List.map_nil]
    rw [List.nodup_append]
    exact ⟨i1, List.nodup_singleton _,
      fun a ha hb => hfresh (List.mem_singleton.mp hb ▸ ha)⟩
  · rw [hwp]; exact i2
  · rw [hact]
    intro q hq
    rcases List.mem_append.mp hq with h | h
    · exact i3 q h
    · rw [List.mem_singleton.mp h]
      exact hsid
  · intro q hq
    rw [hwp] at hq
    obtain ⟨sid2, h1, h2⟩ := i4 q hq
    refine ⟨sid2, h1, ?_⟩
    rw [hact]
    simp only [List.map_append, List.map_cons, List.map_nil]
    exact List.mem_append_left _ h2
  · rw [hact]
    intro q hq
    rcases List.mem_append.mp hq with h | h
    · obtain ⟨j1, j2⟩ := i5 q h
      exact ⟨by rw [hpf]; exact j1, fun hs => by rw [hpf]; exact j2 hs⟩
    · rw [List.mem_singleton.mp h]
      exact ⟨by rw [hpf, h0]; exact Nat.zero_le 1, fun _ => by rw [hpf, h0]⟩

/-- A successful limit detection preserves the structural invariant:
it either changes nothing or bumps one waiting session in place. -/
theorem inv_detect (env : ControllerEnv) (ctrl ctrl2 : RestartController)
    (sid : String) (ev : LimitDetectionEvent) (now : Rat)
    (heq : ctrl.handle_limit_detection env sid ev now =
      Except.ok ctrl2)
    (hinv : ControllerInv ctrl) : ControllerInv ctrl2 := by
  rcases handle_limit_detection_outcomes _ _ _ _ _ _ heq with h |
    ⟨session, hlook, hw, hwp, hact⟩
  · rwa [h]
  · unfold ControllerInv at hinv ⊢
    obtain ⟨i1, i2, i3, i4, i5⟩ := hinv
    have hmemS := lookup_mem _ _ _ hlook
    have hkeys : ctrl2.active_sessions.map Prod.fst =
        ctrl.active_sessions.map Prod.fst := by
      rw [hact, updateAssoc_keys]
    have hpf : ∀ x, periodsFor ctrl2 x = periodsFor ctrl x := fun x =>
      periodsFor_congr _ _ _ hwp
    refine ⟨?_, ?_, ?_, ?_, ?_⟩
    · rw [hkeys]; exact i1
    · rw [hwp]; exact i2
    · rw [hact]
      intro q hq
      rcases mem_updateAssoc _ _ _ _ hq with h | ⟨hq2, _⟩
      · rw [h]
        exact i3 (sid, session) hmemS
      · exact i3 q hq2
    · intro q hq
      rw [hwp] at hq
      obtain ⟨sid2, h1, h2⟩ := i4 q hq
      exact ⟨sid2, h1, by rw [hkeys]; exact h2⟩
    · rw [hact]
      intro q hq
      rcases mem_updateAssoc _ _ _ _ hq with h | ⟨hq2, _⟩
      · rw [h]
        obtain ⟨j1, j2⟩ := i5 (sid, session) hmemS
        exact ⟨by rw [hpf]; exact j1, fun hs => by rw [hpf]; exact j2 hs⟩
      · obtain ⟨j1, j2⟩ := i5 q hq2
        exact ⟨by rw [hpf]; exact j1, fun hs => by rw [hpf]; exact j2 hs⟩


/-- Invariant transfer for the completion shape: the session dictionary
is updated in place under its own key and the finished period is
dropped by key, the unique period of the completing session. -/
theorem inv_of_parts (ctrl fin : RestartController) (sid : String)
    (s3 : MonitoringSession) (pid : String)
    (hact : fin.active_sessions = updateAssoc ctrl.active_sessions sid s3)
    (hwp : fin.waiting_periods =
      ctrl.waiting_periods.filter (fun q => q.1 ≠ pid))
    (hs3 : s3.session_id = sid)
    (huniq : ∀ p ∈ ctrl.waiting_periods, p.2.session_id = some sid →
      p.1 = pid)
    (hinv : ControllerInv ctrl) : ControllerInv fin := by
  unfold ControllerInv at hinv ⊢
  obtain ⟨i1, i2, i3, i4, i5⟩ := hinv
  have hle : ∀ x, periodsFor fin x ≤ periodsFor ctrl x := by
    intro x
    unfold periodsFor
    rw [hwp]
    exact length_filter_filter_le _ _ _
  refine ⟨?_, ?_, ?_, ?_, ?_⟩
  · rw [hact, updateAssoc_keys]
    exact i1
  · rw [hwp]
    exact i2.sublist (List.Sublist.map _ (List.filter_sublist _))
  · rw [hact]
    intro q hq
    rcases mem_updateAssoc _ _ _ _ hq with h | ⟨hq2, _⟩
    · rw [h]
      exact hs3
    · exact i3 q hq2
  · rw [hwp]
    intro q hq
    obtain ⟨hq1, _⟩ := List.mem_filter.mp hq
    obtain ⟨sid2, h1, h2⟩ := i4 q hq1
    refine ⟨sid2, h1, ?_⟩
    rw [hact, updateAssoc_keys]
    exact h2
  · rw [hact]
    intro q hq
    rcases mem_updateAssoc _ _ _ _ hq with h | ⟨hq2, _⟩
    · have h0 : periodsFor fin sid = 0 := by
        unfold periodsFor
        rw [hwp, List.length_eq_zero, List.filter_eq_nil]
        intro p hp
        obtain ⟨hp1, hp2⟩ := List.mem_filter.mp hp
        simp only [decide_eq_true_eq] at hp2 ⊢
        intro hps
        exact hp2 (huniq p hp1 hps)
      rw [h]
      exact ⟨le_trans (le_of_eq h0) (Nat.zero_le 1), fun _ => h0⟩
    · obtain ⟨j1, j2⟩ := i5 q hq2
      refine ⟨le_trans (hle q.1) j1, fun hs => ?_⟩
      have h2 := j2 hs
      have h3 := hle q.1
      omega

/-- Completing a waiting period preserves the structural invariant. -/
theorem inv_complete (env : ControllerEnv) (ctrl : RestartController)
    (wp wpS : WaitingPeriod) (cfg : String) (now : Rat)
    (hmem : (wp.period_id, wpS) ∈ ctrl.waiting_periods)
    (hsidS : wpS.session_id = wp.session_id)
    (hinv : ControllerInv ctrl) :
    ControllerInv (ctrl.handle_waiting_completion env wp cfg now) := by
  rcases hwsid : wp.session_id with _ | sid
  · have h : ctrl.handle_waiting_completion env wp cfg now = ctrl := by
      simp only [RestartController.handle_waiting_completion, hwsid]
    rw [h]
    exact hinv
  · by_cases hcont : ((ctrl.active_sessions.map Prod.fst).contains sid) = true
    · have hsidmem : sid ∈ ctrl.active_sessions.map Prod.fst := by
        simpa using hcont
      obtain ⟨session, hlk⟩ := mem_keys_lookup _ _ hsidmem
      obtain ⟨s3, hact, hs3id, hwpr⟩ := initiate_restart_shape env
        { ctrl with last_waiting_period := some wp } sid cfg now session hlk
      obtain ⟨i1, i2, i3, i4, i5⟩ := hinv
      have hmemS := lookup_mem _ _ _ hlk
      have hlen1 : (ctrl.waiting_periods.filter
          (fun q => decide (q.2.session_id = some sid))).length ≤ 1 :=
        (i5 (sid, session) hmemS).1
      have hwS : (wp.period_id, wpS) ∈ ctrl.waiting_periods.filter
          (fun q => decide (q.2.session_id = some sid)) :=
        List.mem_filter.mpr ⟨hmem, by
          simp only [decide_eq_true_eq]
          rw [hsidS, hwsid]⟩
      have huniq : ∀ p ∈ ctrl.waiting_periods,
          p.2.session_id = some sid → p.1 = wp.period_id := by
        intro p hp hps
        have hpmem : p ∈ ctrl.waiting_periods.filter
            (fun q => decide (q.2.session_id = some sid)) :=
          List.mem_filter.mpr ⟨hp, by
            simp only [decide_eq_true_eq]
            exact hps⟩
        have hpe := mem_of_length_le_one _ hlen1 p (wp.period_id, wpS)
          hpmem hwS
        rw [hpe]
      have hactF : (ctrl.handle_waiting_completion env wp cfg
          now).active_sessions = updateAssoc ctrl.active_sessions sid s3 := by
        simp only [RestartController.handle_waiting_completion, hwsid]
        rw [if_pos hcont]
        dsimp only
        rw [hact]
      have hwpF : (ctrl.handle_waiting_completion env wp cfg
          now).waiting_periods =
          ctrl.waiting_periods.filter (fun q => q.1 ≠ wp.period_id) := by
        simp only [RestartController.handle_waiting_completion, hwsid]
        rw [if_pos hcont]
        dsimp only
        rw [hwpr]
      exact inv_of_parts ctrl _ sid s3 wp.period_id hactF hwpF
        (by rw [hs3id]; exact i3 (sid, session) hmemS) huniq
        ⟨i1, i2, i3, i4, i5⟩
    · have h : ctrl.handle_waiting_completion env wp cfg now = ctrl := by
        simp only [RestartController.handle_waiting_completion, hwsid]
        rw [if_neg hcont]
      rw [h]
      exact hinv

/-- okOr extracts a successful result. -/
theorem okOr_ok (d c : RestartController) : okOr d (Except.ok c) = c := rfl

/-- With no waiting period at all, unique session keys and sessions
stored under their own ids already give the full structural
invariant. -/
theorem controllerInv_of_nil (fin : RestartController)
    (h1 : (fin.active_sessions.map Prod.fst).Nodup)
    (h3 : ∀ q ∈ fin.active_sessions,
      (q.2 : MonitoringSession).session_id = q.1)
    (hwp : fin.waiting_periods = []) : ControllerInv fin := by
  unfold ControllerInv
  have hz : ∀ x, periodsFor fin x = 0 := by
    intro x
    unfold periodsFor
    rw [hwp]
    rfl
  refine ⟨h1, by rw [hwp]; simp, h3, ?_, ?_⟩
  · intro q hq
    rw [hwp] at hq
    exact absurd hq (List.not_mem_nil _)
  · intro q hq
    exact ⟨by rw [hz]; exact Nat.zero_le 1, fun _ => hz _⟩

/-- A process crash preserves the structural invariant on a controller
holding no waiting period, and leaves the period dictionary empty. -/
theorem crash_preserves (env : ControllerEnv) (ctrl : RestartController)
    (sid cfg : String) (now : Rat)
    (hinv : ControllerInv ctrl) (hwp : ctrl.waiting_periods = []) :
    ControllerInv (ctrl.handle_process_crash env sid cfg now) ∧
    (ctrl.handle_process_crash env sid cfg now).waiting_periods = [] := by
  unfold ControllerInv at hinv
  obtain ⟨i1, i2, i3, i4, i5⟩ := hinv
  rcases hs : List.lookup sid ctrl.active_sessions with _ | session
  · have h : ctrl.handle_process_crash env sid cfg now = ctrl := by
      simp only [RestartController.handle_process_crash, hs]
    rw [h]
    exact ⟨⟨i1, i2, i3, i4, i5⟩, hwp⟩
  · have hceq : ctrl.handle_process_crash env sid cfg now =
        RestartController.initiate_restart env
          { ctrl with active_sessions := (updateAssoc ctrl.active_sessions
            sid (session.mark_crashed now)) } sid cfg now := by
      simp only [RestartController.handle_process_crash, hs]
    obtain ⟨s3, hact3, hs3id, hwpr3⟩ := initiate_restart_shape env
      { ctrl with active_sessions := (updateAssoc ctrl.active_sessions sid
        (session.mark_crashed now)) } sid cfg now
      (session.mark_crashed now) (lookup_updateAssoc _ _ _ _ hs)
    have hwpF : (ctrl.handle_process_crash env sid cfg
        now).waiting_periods = [] := by
      rw [hceq, hwpr3]
      exact hwp
    have hactF : (ctrl.handle_process_crash env sid cfg
        now).active_sessions = updateAssoc (updateAssoc ctrl.active_sessions
          sid (session.mark_crashed now)) sid s3 := by
      rw [hceq, hact3]
    refine ⟨controllerInv_of_nil _ ?_ ?_ hwpF, hwpF⟩
    · rw [hactF, updateAssoc_keys, updateAssoc_keys]
      exact i1
    · rw [hactF]
      intro q hq
      rcases mem_updateAssoc _ _ _ _ hq with h | ⟨hq2, hne⟩
      · rw [h]
        exact hs3id.trans (i3 (sid, session) (lookup_mem _ _ _ hs))
      · rcases mem_updateAssoc _ _ _ _ hq2 with h2 | ⟨hq3, _⟩
        · rw [h2] at hne
          exact absurd rfl hne
        · exact i3 q hq3

/-- Stopping a session on a controller without periods leaves the
period dictionary empty. -/
theorem stop_waiting_nil (ctrl : RestartController) (sid : String)
    (now : Rat) (h : ctrl.waiting_periods = []) :
    (ctrl.stop_single_session sid now).1.waiting_periods = [] := by
  rcases hlk : List.lookup sid ctrl.active_sessions with _ | s
  · simp only [RestartController.stop_single_session, hlk]
    exact h
  · simp only [RestartController.stop_single_session, hlk]
    rw [h]
    rfl

/-- Every reachable controller, crash callbacks included, satisfies
the structural invariant — and in fact never holds a waiting period:
the only period-creating path, the limit detection on an active
session, always raises the period_id validation error. -/
theorem reachable_no_periods {allow : Bool} {st : RestartController}
    (h : ReachableCtrl allow st) :
    ControllerInv st ∧ st.waiting_periods = [] := by
  induction h with
  | init => exact ⟨inv_initial, rfl⟩
  | step hr hstep ih =>
      obtain ⟨ih1, ih2⟩ := ih
      cases hstep with
      | start env _ _ cmd wd rcmds sid cfg now hfresh heq =>
          obtain ⟨s2, hact, hsid, hst, hwp⟩ :=
            start_monitoring_ok_shape _ _ _ _ _ _ _ _ _ heq
          exact ⟨inv_start _ _ env cmd wd rcmds sid cfg now hfresh heq ih1,
            by rw [hwp]; exact ih2⟩
      | detect env _ _ sid ev now hguard heq =>
          rcases handle_limit_detection_outcomes _ _ _ _ _ _ heq with h |
            ⟨session, hlook, hw, hwpeq, hacteq⟩
          · rw [h]
            exact ⟨ih1, ih2⟩
          · exact ⟨inv_detect env _ _ sid ev now heq ih1,
              by rw [hwpeq]; exact ih2⟩
      | complete env _ wp wpS cfg now hmem hsid =>
          rw [ih2] at hmem
          exact absurd hmem (List.not_mem_nil _)
      | crash env _ sid cfg now =>
          exact crash_preserves env _ sid cfg now ih1 ih2
      | stop _ sid now =>
          exact ⟨inv_stop _ sid now ih1, stop_waiting_nil _ sid now ih2⟩

/-- Starting the first session of the sample scenario evaluates. -/
theorem ctrlC1_eq : initialController.start_monitoring envOk "claude" none
    [] "sess_a" "cfg_1" 0 = Except.ok ctrlC1 := rfl

/-- The started session is stored under its id. -/
theorem sessA1_lookup : List.lookup "sess_a" ctrlC1.active_sessions =
    some sessA1 := rfl

/-- The started session is active. -/
theorem sessA1_status : sessA1.status = SessionStatus.active := rfl

/-- The started session carries its id. -/
theorem sessA1_sid : sessA1.session_id = "sess_a" := rfl

/-- The started controller has the default check frequency. -/
theorem ctrlC1_freq : ctrlC1.timing_manager.check_frequency = 60 := rfl

/-- The started controller holds no waiting period. -/
theorem ctrlC1_wp : ctrlC1.waiting_periods = [] := rfl

/-- C1: for every session already in the waiting state, a further
limit detection increments the session's detection counter and appends
the event, but never creates a second concurrent waiting period — the
period dictionary and the timing manager stay untouched; and at every
reachable controller state, crash callbacks included, the structural
invariant holds, so each session holds at most one concurrent
waiting-period reference.  The invariant is in fact vacuous: the only
period-creating path, the limit detection on an active session, always
raises the period_id validation error (see C2), so no reachable state
holds any waiting period at all. -/
theorem no_duplicate_waiting_periods :
    (∀ (env : ControllerEnv) (ctrl : RestartController) (sid : String)
      (ev : LimitDetectionEvent) (now : Rat) (session : MonitoringSession),
      List.lookup sid ctrl.active_sessions = some session →
      session.status = SessionStatus.waiting →
      ∃ ctrl2, ctrl.handle_limit_detection env sid ev now =
          Except.ok ctrl2 ∧
        ctrl2.waiting_periods = ctrl.waiting_periods ∧
        ctrl2.timing_manager = ctrl.timing_manager ∧
        ctrl2.detection_events = ctrl.detection_events ++ [ev] ∧
        (∃ s2, List.lookup sid ctrl2.active_sessions = some s2 ∧
          s2.detection_count = session.detection_count + 1 ∧
          s2.waiting_period_id = session.waiting_period_id)) ∧
    (∀ (allow : Bool) (st : RestartController), ReachableCtrl allow st →
      ControllerInv st) := by
  constructor
  · intro env ctrl sid ev now session hs hw
    refine ⟨_, handle_limit_detection_waiting_ok env ctrl sid ev now
      session hs hw, rfl, rfl, rfl, ?_⟩
    exact ⟨_, lookup_updateAssoc _ _ _ _ hs, rfl, rfl⟩
  · exact fun allow st h => (reachable_no_periods h).1

/-- C1 witness: a duplicate detection on the sample waiting controller
keeps its single waiting period and bumps the counter, and a freshly
started controller is a reachable state — crash callbacks admitted —
satisfying the invariant. -/
theorem no_duplicate_waiting_periods_witness :
    (∃ ctrl2, RestartController.handle_limit_detection envOk
        ctrlWaitingSample "sess_a" evtSample 50 = Except.ok ctrl2 ∧
      ctrl2.waiting_periods = ctrlWaitingSample.waiting_periods ∧
      (∃ s2, List.lookup "sess_a" ctrl2.active_sessions = some s2 ∧
        s2.detection_count = 1)) ∧
    ControllerInv ctrlC1 := by
  obtain ⟨p1, p2⟩ := no_duplicate_waiting_periods
  constructor
  · obtain ⟨c2, hrun, hwp, htm, hde, s2, hlk, hdc, hwpid⟩ :=
      p1 envOk ctrlWaitingSample "sess_a" evtSample 50
        { sessSample with
          status := SessionStatus.waiting
          waiting_period_id := some "wp_0" } rfl rfl
    exact ⟨c2, hrun, hwp, s2, hlk, by rw [hdc]; rfl⟩
  · exact p2 true ctrlC1 (ReachableCtrl.step (ReachableCtrl.init true)
      (CtrlStep.start envOk initialController ctrlC1 "claude" none []
        "sess_a" "cfg_1" 0 (by decide) ctrlC1_eq))
